import Mathlib

/-!
# ShaderType (glshader.h): a shallow embedding

The class `ShaderType` of `opengl3.3/include/glshader.h` is glue code over the
OpenGL driver.  The driver is not part of the repository, so it is a parameter
of the embedding: a record `Driver σ` of arbitrary functions over an arbitrary
driver state `σ`, one per OpenGL entry point the class calls.  The process
state the class touches is made explicit in `World`:

* the driver's own state,
* the log of driver calls made so far (arguments and results),
* the characters written to `std::cout`,
* the function-local `static GLuint defaultShader` of `compileDefaultShader`.

Every method is a function from the instance and the world to its result, the
instance afterwards (for non-`const` methods) and the world afterwards.
-/

namespace GLShader

/-! ## C types -/

/-- `GLuint`: an unsigned 32-bit integer, kept as a natural number below `2^32`. -/
abbrev GLuint := Nat

/-- `GLint`: a signed 32-bit integer, kept as an integer in `[-2^31, 2^31)`. -/
abbrev GLint := Int

/-- `GLsizei`: a signed 32-bit integer. -/
abbrev GLsizei := Int

/-- `GLfloat`: a single-precision float, kept as its 32-bit pattern; the class
never computes with floats, it only hands them to the driver. -/
abbrev GLfloat := Nat

/-- `char`: one byte. -/
abbrev char := Fin 256

/-- Conversion of an integer to `GLuint` (reduction modulo `2^32`), as done by
`GLuint(x)` and by the implicit conversion in `_matrixUniformId = ...`. -/
def toGLuint (i : Int) : Nat := (i % 4294967296).toNat

/-- Conversion of an integer to `GLint` (two's complement, 32 bits), as done when
a `GLuint` is passed where a `GLint` is expected. -/
def toGLint (i : Int) : Int :=
  if i % 4294967296 < 2147483648 then i % 4294967296 else i % 4294967296 - 4294967296

/-- The conversion `static_cast<size_t>(x)` on a 64-bit target. -/
def static_cast_size_t (i : Int) : Nat := (i % 18446744073709551616).toNat

/-- The symbolic constants of `glad/glad.h` that the class uses. -/
inductive GLenum where
  | GL_VERTEX_SHADER
  | GL_FRAGMENT_SHADER
  | GL_COMPILE_STATUS
  | GL_LINK_STATUS
  | GL_INFO_LOG_LENGTH
  | GL_FLOAT
  deriving DecidableEq, Repr

open GLenum

/-- The constant `GL_FALSE` of `glad/glad.h`. -/
def GL_FALSE : GLint := 0

/-- The constant `GL_TRUE` of `glad/glad.h`. -/
def GL_TRUE : GLint := 1

/-- Size in bytes of a `float`. -/
def sizeof_float : Nat := 4

/-- Size in bytes of a `glm::vec3` (three floats). -/
def sizeof_vec3 : Nat := 3 * sizeof_float

/-- Size in bytes of a `glm::vec4` (four floats). -/
def sizeof_vec4 : Nat := 4 * sizeof_float

/-- A `glm::mat4`: four columns of four floats each (`cols c r` is the entry in
column `c`, row `r`). -/
structure mat4 where
  cols : Fin 4 → Fin 4 → GLfloat

/-- The sixteen floats `glm::value_ptr(m)` points to: column after column. -/
def value_ptr (m : mat4) : List GLfloat :=
  List.ofFn (fun i : Fin 16 => m.cols ⟨i.val / 4, by omega⟩ ⟨i.val % 4, by omega⟩)

/-! ## The driver -/

/-- The OpenGL entry points used by `ShaderType`, as functions on a driver state
`σ`.  A query with an out-parameter (`glGetShaderiv`, `glGetProgramiv`) receives
the value the variable held before the call and returns the value it holds
afterwards, so a driver that stores nothing is expressible.  The info-log
queries return the bytes the driver stores from `infoLog[0]` onwards. -/
structure Driver (σ : Type) where
  glCreateShader : GLenum → σ → Int × σ
  glShaderSource : GLuint → String → σ → σ
  glCompileShader : GLuint → σ → σ
  glGetShaderiv : GLuint → GLenum → GLint → σ → Int × σ
  glGetShaderInfoLog : GLuint → GLsizei → σ → List char × σ
  glCreateProgram : σ → Int × σ
  glAttachShader : GLuint → GLuint → σ → σ
  glLinkProgram : GLuint → σ → σ
  glGetProgramiv : GLuint → GLenum → GLint → σ → Int × σ
  glGetProgramInfoLog : GLuint → GLsizei → σ → List char × σ
  glDeleteShader : GLuint → σ → σ
  glGetUniformLocation : GLuint → String → σ → Int × σ
  glUseProgram : GLuint → σ → σ
  glUniformMatrix4fv : GLint → GLsizei → Bool → List GLfloat → σ → σ
  glGetAttribLocation : GLuint → String → σ → Int × σ
  glVertexAttribPointer : GLuint → GLint → GLenum → Bool → GLsizei → Nat → σ → σ
  glEnableVertexAttribArray : GLuint → σ → σ

/-- One driver call, with its arguments and, where the call yields a value, the
value at its C type.  For the info-log queries `bufSize` is the size of the
buffer `infoLog` points to and `stored` are the bytes the driver stored. -/
inductive GLCall where
  | glCreateShader (type : GLenum) (ret : GLuint)
  | glShaderSource (shader : GLuint) (count : GLsizei) (source : String)
  | glCompileShader (shader : GLuint)
  | glGetShaderiv (shader : GLuint) (pname : GLenum) (before after : GLint)
  | glGetShaderInfoLog (shader : GLuint) (maxLength : GLsizei) (bufSize : Nat)
      (stored : List char)
  | glCreateProgram (ret : GLuint)
  | glAttachShader (program shader : GLuint)
  | glLinkProgram (program : GLuint)
  | glGetProgramiv (program : GLuint) (pname : GLenum) (before after : GLint)
  | glGetProgramInfoLog (program : GLuint) (maxLength : GLsizei) (bufSize : Nat)
      (stored : List char)
  | glDeleteShader (shader : GLuint)
  | glGetUniformLocation (program : GLuint) (name : String) (ret : GLint)
  | glUseProgram (program : GLuint)
  | glUniformMatrix4fv (location : GLint) (count : GLsizei) (transpose : Bool)
      (value : List GLfloat)
  | glGetAttribLocation (program : GLuint) (name : String) (ret : GLint)
  | glVertexAttribPointer (index : GLuint) (size : GLint) (type : GLenum)
      (normalized : Bool) (stride : GLsizei) (pointer : Nat)
  | glEnableVertexAttribArray (index : GLuint)
  deriving DecidableEq, Repr

/-- The process state the class reads and writes. -/
structure World (σ : Type) where
  /-- State of the driver. -/
  gl : σ
  /-- Driver calls made so far, oldest first. -/
  calls : List GLCall
  /-- Characters written to `std::cout` so far. -/
  cout : List char
  /-- The `static GLuint defaultShader` of `compileDefaultShader`. -/
  defaultShader : GLuint

variable {σ : Type}

/-! ## Driver calls as seen by the C++ code

Each wrapper runs the driver, reads its result at the C type of the entry point
and appends the call to the log. -/

/-- Appends a call to the log and installs the new driver state. -/
def World.record (w : World σ) (c : GLCall) (gl : σ) : World σ :=
  { w with gl := gl, calls := w.calls ++ [c] }

def glCreateShader (drv : Driver σ) (type : GLenum) (w : World σ) : GLuint × World σ :=
  let r := drv.glCreateShader type w.gl
  (toGLuint r.1, w.record (GLCall.glCreateShader type (toGLuint r.1)) r.2)

def glShaderSource (drv : Driver σ) (shader : GLuint) (count : GLsizei) (source : String)
    (w : World σ) : World σ :=
  w.record (GLCall.glShaderSource shader count source) (drv.glShaderSource shader source w.gl)

def glCompileShader (drv : Driver σ) (shader : GLuint) (w : World σ) : World σ :=
  w.record (GLCall.glCompileShader shader) (drv.glCompileShader shader w.gl)

/-- The call `glGetShaderiv(shader, pname, &x)`: `before` is the value of `x`
before the call, the result is its value afterwards. -/
def glGetShaderiv (drv : Driver σ) (shader : GLuint) (pname : GLenum) (before : GLint)
    (w : World σ) : GLint × World σ :=
  let r := drv.glGetShaderiv shader pname before w.gl
  (toGLint r.1, w.record (GLCall.glGetShaderiv shader pname before (toGLint r.1)) r.2)

/-- Memory from `&buf[0]` onwards after the driver stored `stored` there. -/
def storeAt (buf stored : List char) : List char :=
  stored ++ buf.drop stored.length

/-- The call `glGetShaderInfoLog(shader, maxLength, NULL, &buf[0])`: the result is
the memory from `&buf[0]` onwards after the call. -/
def glGetShaderInfoLog (drv : Driver σ) (shader : GLuint) (maxLength : GLsizei)
    (buf : List char) (w : World σ) : List char × World σ :=
  let r := drv.glGetShaderInfoLog shader maxLength w.gl
  (storeAt buf r.1, w.record (GLCall.glGetShaderInfoLog shader maxLength buf.length r.1) r.2)

def glCreateProgram (drv : Driver σ) (w : World σ) : GLuint × World σ :=
  let r := drv.glCreateProgram w.gl
  (toGLuint r.1, w.record (GLCall.glCreateProgram (toGLuint r.1)) r.2)

def glAttachShader (drv : Driver σ) (program shader : GLuint) (w : World σ) : World σ :=
  w.record (GLCall.glAttachShader program shader) (drv.glAttachShader program shader w.gl)

def glLinkProgram (drv : Driver σ) (program : GLuint) (w : World σ) : World σ :=
  w.record (GLCall.glLinkProgram program) (drv.glLinkProgram program w.gl)

/-- The call `glGetProgramiv(program, pname, &x)`, see `glGetShaderiv`. -/
def glGetProgramiv (drv : Driver σ) (program : GLuint) (pname : GLenum) (before : GLint)
    (w : World σ) : GLint × World σ :=
  let r := drv.glGetProgramiv program pname before w.gl
  (toGLint r.1, w.record (GLCall.glGetProgramiv program pname before (toGLint r.1)) r.2)

/-- The call `glGetProgramInfoLog(program, maxLength, NULL, &buf[0])`, see
`glGetShaderInfoLog`. -/
def glGetProgramInfoLog (drv : Driver σ) (program : GLuint) (maxLength : GLsizei)
    (buf : List char) (w : World σ) : List char × World σ :=
  let r := drv.glGetProgramInfoLog program maxLength w.gl
  (storeAt buf r.1, w.record (GLCall.glGetProgramInfoLog program maxLength buf.length r.1) r.2)

def glDeleteShader (drv : Driver σ) (shader : GLuint) (w : World σ) : World σ :=
  w.record (GLCall.glDeleteShader shader) (drv.glDeleteShader shader w.gl)

def glGetUniformLocation (drv : Driver σ) (program : GLuint) (name : String) (w : World σ) :
    GLint × World σ :=
  let r := drv.glGetUniformLocation program name w.gl
  (toGLint r.1, w.record (GLCall.glGetUniformLocation program name (toGLint r.1)) r.2)

def glUseProgram (drv : Driver σ) (program : GLuint) (w : World σ) : World σ :=
  w.record (GLCall.glUseProgram program) (drv.glUseProgram program w.gl)

def glUniformMatrix4fv (drv : Driver σ) (location : GLint) (count : GLsizei) (transpose : Bool)
    (value : List GLfloat) (w : World σ) : World σ :=
  w.record (GLCall.glUniformMatrix4fv location count transpose value)
    (drv.glUniformMatrix4fv location count transpose value w.gl)

def glGetAttribLocation (drv : Driver σ) (program : GLuint) (name : String) (w : World σ) :
    GLint × World σ :=
  let r := drv.glGetAttribLocation program name w.gl
  (toGLint r.1, w.record (GLCall.glGetAttribLocation program name (toGLint r.1)) r.2)

def glVertexAttribPointer (drv : Driver σ) (index : GLuint) (size : GLint) (type : GLenum)
    (normalized : Bool) (stride : GLsizei) (pointer : Nat) (w : World σ) : World σ :=
  w.record (GLCall.glVertexAttribPointer index size type normalized stride pointer)
    (drv.glVertexAttribPointer index size type normalized stride pointer w.gl)

def glEnableVertexAttribArray (drv : Driver σ) (index : GLuint) (w : World σ) : World σ :=
  w.record (GLCall.glEnableVertexAttribArray index) (drv.glEnableVertexAttribArray index w.gl)

/-! ## Standard-library pieces -/

/-- A `std::vector<char>(n)`: `n` zero bytes. -/
def vector_char (n : Nat) : List char := List.replicate n 0

/-- The zero-terminated string starting at the first byte of `mem`. -/
def c_str (mem : List char) : List char := mem.takeWhile (fun c => c ≠ 0)

/-- The line end written by `std::endl`. -/
def endl : char := 10

/-- The statement `std::cout << &buf[0] << std::endl`. -/
def cout_line (mem : List char) (w : World σ) : World σ :=
  { w with cout := w.cout ++ c_str mem ++ [endl] }

/-! ## The class -/

/-- The data members of `ShaderType`. -/
structure ShaderType where
  _shaderId : GLuint
  _matrixUniformId : GLuint
  _matrixUniformName : String
  _vertexAttributeName : String
  _colorAttributeName : String
  deriving DecidableEq, Repr

namespace ShaderType

/-- The constructor `ShaderType()`; it takes no argument. -/
def construct : ShaderType :=
  { _shaderId := 0, _matrixUniformId := 0,
    _matrixUniformName := "u_matrix",
    _vertexAttributeName := "vertex", _colorAttributeName := "color" }

/-- The method `id()`. -/
def id (self : ShaderType) : GLuint := self._shaderId

/-- The method `use()`. -/
def use (drv : Driver σ) (self : ShaderType) (w : World σ) : World σ :=
  glUseProgram drv self._shaderId w

/-- The method `compile(vertShaderStr, fragShaderStr)` of the class itself (the
method is virtual; this is the body in `ShaderType`).  `logLength` is the value
the uninitialised local `GLint logLength` happens to hold on entry.  The result
is the returned `bool`, the instance afterwards and the world afterwards. -/
def compile (drv : Driver σ) (logLength : GLint) (self : ShaderType)
    (vertShaderStr fragShaderStr : String) (w : World σ) : Bool × ShaderType × World σ :=
  let c1 := glCreateShader drv GL_VERTEX_SHADER w
  let vertShader := c1.1
  let c2 := glCreateShader drv GL_FRAGMENT_SHADER c1.2
  let fragShader := c2.1
  let result : GLint := GL_FALSE
  -- Compile vertex shader
  let w3 := glShaderSource drv vertShader 1 vertShaderStr c2.2
  let w4 := glCompileShader drv vertShader w3
  -- Check vertex shader
  let c5 := glGetShaderiv drv vertShader GL_COMPILE_STATUS result w4
  let result := c5.1
  if result = GL_FALSE then
    let c6 := glGetShaderiv drv vertShader GL_INFO_LOG_LENGTH logLength c5.2
    let logLength := c6.1
    let vertShaderError := vector_char (static_cast_size_t (if logLength > 1 then logLength else 1))
    let c7 := glGetShaderInfoLog drv vertShader logLength vertShaderError c6.2
    let w8 := cout_line c7.1 c7.2
    (false, self, w8)
  else
    -- Compile fragment shader
    let w6 := glShaderSource drv fragShader 1 fragShaderStr c5.2
    let w7 := glCompileShader drv fragShader w6
    -- Check fragment shader
    let c8 := glGetShaderiv drv fragShader GL_COMPILE_STATUS result w7
    let result := c8.1
    if result = GL_FALSE then
      let c9 := glGetShaderiv drv fragShader GL_INFO_LOG_LENGTH logLength c8.2
      let logLength := c9.1
      let fragShaderError :=
        vector_char (static_cast_size_t (if logLength > 1 then logLength else 1))
      let c10 := glGetShaderInfoLog drv fragShader logLength fragShaderError c9.2
      let w11 := cout_line c10.1 c10.2
      (false, self, w11)
    else
      let c9 := glCreateProgram drv c8.2
      let self := { self with _shaderId := c9.1 }
      let w10 := glAttachShader drv self._shaderId vertShader c9.2
      let w11 := glAttachShader drv self._shaderId fragShader w10
      let w12 := glLinkProgram drv self._shaderId w11
      let c13 := glGetProgramiv drv self._shaderId GL_LINK_STATUS result w12
      let result := c13.1
      if result = GL_FALSE then
        let c14 := glGetProgramiv drv self._shaderId GL_INFO_LOG_LENGTH logLength c13.2
        let logLength := c14.1
        let programError :=
          vector_char (static_cast_size_t (if logLength > 1 then logLength else 1))
        let c15 := glGetProgramInfoLog drv self._shaderId logLength programError c14.2
        let w16 := cout_line c15.1 c15.2
        (false, self, w16)
      else
        let w14 := glDeleteShader drv vertShader c13.2
        let w15 := glDeleteShader drv fragShader w14
        let c16 := glGetUniformLocation drv self._shaderId self._matrixUniformName w15
        let self := { self with _matrixUniformId := toGLuint c16.1 }
        (true, self, c16.2)

/-- The vertex-shader source embedded in `compileDefaultShader`. -/
def vshader : String :=
  "#version 150\n" ++
  "in vec3 vertex;" ++
  "in vec4 color;" ++
  "uniform mat4 u_matrix;" ++
  "out vec4 f_color;" ++
  "void main()" ++
  "\x7b" ++
  "    gl_Position = u_matrix * vec4(vertex.xyz, 1.0);" ++
  "    f_color = color;" ++
  "\x7d"

/-- The fragment-shader source embedded in `compileDefaultShader`. -/
def fshader : String :=
  "#version 150\n" ++
  "in vec4 f_color;" ++
  "out vec4 color;" ++
  "void main()" ++
  "\x7b" ++
  "   color = f_color;" ++
  "\x7d"

/-- The method `compileDefaultShader()`, for an object whose dynamic type is
`ShaderType` itself, so that the virtual call reaches `compile` above.  The
function-local static `defaultShader` lives in the world. -/
def compileDefaultShader (drv : Driver σ) (logLength : GLint) (self : ShaderType)
    (w : World σ) : Bool × ShaderType × World σ :=
  if w.defaultShader = 0 then
    let c := compile drv logLength self vshader fshader w
    if c.1 then
      (true, c.2.1, { c.2.2 with defaultShader := c.2.1._shaderId })
    else
      (false, c.2.1, c.2.2)
  else
    (true, self, w)

/-- The method `setupMatrices(matrix)`. -/
def setupMatrices (drv : Driver σ) (self : ShaderType) (matrix : mat4) (w : World σ) :
    ShaderType × World σ :=
  let w1 := use drv self w
  (self, glUniformMatrix4fv drv (toGLint self._matrixUniformId) 1 false (value_ptr matrix) w1)

/-- The method `setupAttributes()`. -/
def setupAttributes (drv : Driver σ) (self : ShaderType) (w : World σ) : World σ :=
  let vertexSize := sizeof_vec3 + sizeof_vec4
  let a1 := glGetAttribLocation drv self._shaderId self._vertexAttributeName w
  let vertexAttrib := a1.1
  let w2 := glVertexAttribPointer drv (toGLuint vertexAttrib) (sizeof_vec3 / sizeof_float)
    GL_FLOAT false vertexSize 0 a1.2
  let w3 := glEnableVertexAttribArray drv (toGLuint vertexAttrib) w2
  let a4 := glGetAttribLocation drv self._shaderId self._colorAttributeName w3
  let colorAttrib := a4.1
  let w5 := glVertexAttribPointer drv (toGLuint colorAttrib) (sizeof_vec4 / sizeof_float)
    GL_FLOAT false vertexSize sizeof_vec3 a4.2
  glEnableVertexAttribArray drv (toGLuint colorAttrib) w5

/-! ## Where a run of `compile` stands at each of its three checks

The functions below are the straight-line pieces of `compile` between its
checks; `compile_eq_stages` states that `compile` is their composition. -/

/-- Lines 86 to 99 of `compile`: both shader objects are created, the vertex
shader is given its source, compiled and queried.  The result is `vertShader`,
`fragShader`, the value of `result` at the vertex check, and the world there. -/
def vertexStage (drv : Driver σ) (vertShaderStr : String) (w : World σ) :
    GLuint × GLuint × GLint × World σ :=
  let c1 := glCreateShader drv GL_VERTEX_SHADER w
  let c2 := glCreateShader drv GL_FRAGMENT_SHADER c1.2
  let w3 := glShaderSource drv c1.1 1 vertShaderStr c2.2
  let w4 := glCompileShader drv c1.1 w3
  let c5 := glGetShaderiv drv c1.1 GL_COMPILE_STATUS GL_FALSE w4
  (c1.1, c2.1, c5.1, c5.2)

/-- Lines 111 to 115 of `compile`, run after `vertexStage`: the fragment shader
is given its source, compiled and queried.  The result is the value of `result`
at the fragment check and the world there. -/
def fragmentStage (drv : Driver σ) (vertShaderStr fragShaderStr : String) (w : World σ) :
    GLint × World σ :=
  let v := vertexStage drv vertShaderStr w
  let w6 := glShaderSource drv v.2.1 1 fragShaderStr v.2.2.2
  let w7 := glCompileShader drv v.2.1 w6
  glGetShaderiv drv v.2.1 GL_COMPILE_STATUS v.2.2.1 w7

/-- Lines 126 to 131 of `compile`, run after `fragmentStage`: the program is
created, both shaders are attached, the program is linked and queried.  The
result is the handle returned by `glCreateProgram`, the value of `result` at the
link check and the world there. -/
def linkStage (drv : Driver σ) (vertShaderStr fragShaderStr : String) (w : World σ) :
    GLuint × GLint × World σ :=
  let v := vertexStage drv vertShaderStr w
  let f := fragmentStage drv vertShaderStr fragShaderStr w
  let c9 := glCreateProgram drv f.2
  let w10 := glAttachShader drv c9.1 v.1 c9.2
  let w11 := glAttachShader drv c9.1 v.2.1 w10
  let w12 := glLinkProgram drv c9.1 w11
  let c13 := glGetProgramiv drv c9.1 GL_LINK_STATUS f.1 w12
  (c9.1, c13.1, c13.2)

/-- The value of `result` at the vertex check (line 100): the driver reports a
vertex-shader compile failure when it is `GL_FALSE`. -/
def vertexStatus (drv : Driver σ) (vertShaderStr : String) (w : World σ) : GLint :=
  (vertexStage drv vertShaderStr w).2.2.1

/-- The value of `result` at the fragment check (line 116), in a run that passes
the vertex check. -/
def fragmentStatus (drv : Driver σ) (vertShaderStr fragShaderStr : String) (w : World σ) :
    GLint :=
  (fragmentStage drv vertShaderStr fragShaderStr w).1

/-- The value of `result` at the link check (line 132), in a run that passes the
vertex and fragment checks. -/
def linkStatus (drv : Driver σ) (vertShaderStr fragShaderStr : String) (w : World σ) : GLint :=
  (linkStage drv vertShaderStr fragShaderStr w).2.1

/-- The handle `glCreateProgram` returns in a run of `compile` that reaches
line 126. -/
def createdProgram (drv : Driver σ) (vertShaderStr fragShaderStr : String) (w : World σ) :
    GLuint :=
  (linkStage drv vertShaderStr fragShaderStr w).1

/-- Calls `compileDefaultShader()` once on each instance of the list, in order,
in one process; the result lists the returned `bool` and the instance afterwards
for each call. -/
def compileDefaultShaderOnEach (drv : Driver σ) (logLength : GLint) :
    List ShaderType → World σ → List (Bool × ShaderType) × World σ
  | [], w => ([], w)
  | self :: rest, w =>
    let r := compileDefaultShader drv logLength self w
    let rs := compileDefaultShaderOnEach drv logLength rest r.2.2
    ((r.1, r.2.1) :: rs.1, rs.2)

/-- Instances a client can obtain from the class: data members are private and
the only constructor takes no argument. -/
inductive Constructed : ShaderType → Prop where
  | construct : Constructed ShaderType.construct

end ShaderType

/-! ## Reading the call log -/

/-- Names passed to `glGetUniformLocation` in a list of calls. -/
def uniformLookups : List GLCall → List String
  | [] => []
  | GLCall.glGetUniformLocation _ name _ :: cs => name :: uniformLookups cs
  | _ :: cs => uniformLookups cs

/-- Names passed to `glGetAttribLocation` in a list of calls. -/
def attribLookups : List GLCall → List String
  | [] => []
  | GLCall.glGetAttribLocation _ name _ :: cs => name :: attribLookups cs
  | _ :: cs => attribLookups cs

/-- Whether a call is `glCreateProgram`. -/
def GLCall.isCreateProgram : GLCall → Bool
  | GLCall.glCreateProgram _ => true
  | _ => false

/-- Whether a call is `glDeleteShader`. -/
def GLCall.isDeleteShader : GLCall → Bool
  | GLCall.glDeleteShader _ => true
  | _ => false

/-- Whether a call is `glCompileShader`. -/
def GLCall.isCompileShader : GLCall → Bool
  | GLCall.glCompileShader _ => true
  | _ => false

/-! ## A small driver for running the class on concrete inputs -/

/-- State of the test driver: the next free object name, the names of the vertex
shaders created so far, what the driver answers to the three status queries and
the text of its info log. -/
structure Mock where
  next : Nat
  vertexShaders : List GLuint
  vertexOk : Bool
  fragmentOk : Bool
  linkOk : Bool
  log : List char
  deriving DecidableEq, Repr

namespace Mock

/-- Answer to a status query. -/
def status (ok : Bool) : Int := if ok then GL_TRUE else GL_FALSE

/-- Answer to `GL_INFO_LOG_LENGTH`: the length of the log with its terminating
zero, or 0 for an empty log. -/
def logLength (m : Mock) : Int := if m.log = [] then 0 else m.log.length + 1

/-- Bytes stored by an info-log query: at most `maxLength`, the last one zero. -/
def infoLog (m : Mock) (maxLength : GLsizei) : List char :=
  if maxLength ≤ 0 then [] else m.log.take (maxLength.toNat - 1) ++ [0]

/-- The test driver. -/
def driver : Driver Mock where
  glCreateShader type m :=
    (m.next, { m with next := m.next + 1,
                      vertexShaders := if type = GL_VERTEX_SHADER then m.next :: m.vertexShaders
                                       else m.vertexShaders })
  glShaderSource _ _ m := m
  glCompileShader _ m := m
  glGetShaderiv shader pname before m :=
    match pname with
    | GL_COMPILE_STATUS =>
      (status (if shader ∈ m.vertexShaders then m.vertexOk else m.fragmentOk), m)
    | GL_INFO_LOG_LENGTH => (m.logLength, m)
    | _ => (before, m)
  glGetShaderInfoLog _ maxLength m := (m.infoLog maxLength, m)
  glCreateProgram m := (m.next, { m with next := m.next + 1 })
  glAttachShader _ _ m := m
  glLinkProgram _ m := m
  glGetProgramiv _ pname before m :=
    match pname with
    | GL_LINK_STATUS => (status m.linkOk, m)
    | GL_INFO_LOG_LENGTH => (m.logLength, m)
    | _ => (before, m)
  glGetProgramInfoLog _ maxLength m := (m.infoLog maxLength, m)
  glDeleteShader _ m := m
  glGetUniformLocation _ name m := (if name = "u_matrix" then 0 else -1, m)
  glUseProgram _ m := m
  glUniformMatrix4fv _ _ _ _ m := m
  glGetAttribLocation _ name m :=
    (if name = "vertex" then 0 else if name = "color" then 1 else -1, m)
  glVertexAttribPointer _ _ _ _ _ _ m := m
  glEnableVertexAttribArray _ m := m

/-- A fresh process on the test driver: nothing called, nothing written, the
static default handle 0. -/
def world (vertexOk fragmentOk linkOk : Bool) (log : List char) : World Mock :=
  { gl := { next := 1, vertexShaders := [], vertexOk := vertexOk, fragmentOk := fragmentOk,
            linkOk := linkOk, log := log },
    calls := [], cout := [], defaultShader := 0 }

end Mock

/-! ## A driver that keeps the pipeline state -/

/-- State of a driver that remembers what the class sets up: the program bound
by `glUseProgram`, the matrices uploaded (location, count, transpose, values),
the attribute pointers configured and the attribute slots enabled, each list
oldest first. -/
structure Pipeline where
  current : GLuint
  uploads : List (GLint × GLsizei × Bool × List GLfloat)
  pointers : List (GLuint × GLint × GLenum × Bool × GLsizei × Nat)
  enabled : List GLuint
  deriving DecidableEq, Repr

namespace Pipeline

/-- The driver: attribute "vertex" is at location 0, "color" at location 1, any
other name is unknown (-1); the shader and program entry points do nothing. -/
def driver : Driver Pipeline where
  glCreateShader _ p := (0, p)
  glShaderSource _ _ p := p
  glCompileShader _ p := p
  glGetShaderiv _ _ before p := (before, p)
  glGetShaderInfoLog _ _ p := ([], p)
  glCreateProgram p := (0, p)
  glAttachShader _ _ p := p
  glLinkProgram _ p := p
  glGetProgramiv _ _ before p := (before, p)
  glGetProgramInfoLog _ _ p := ([], p)
  glDeleteShader _ p := p
  glGetUniformLocation _ _ p := (-1, p)
  glUseProgram program p := { p with current := program }
  glUniformMatrix4fv location count transpose value p :=
    { p with uploads := p.uploads ++ [(location, count, transpose, value)] }
  glGetAttribLocation _ name p :=
    (if name = "vertex" then 0 else if name = "color" then 1 else -1, p)
  glVertexAttribPointer index size type normalized stride pointer p :=
    { p with pointers := p.pointers ++ [(index, size, type, normalized, stride, pointer)] }
  glEnableVertexAttribArray index p := { p with enabled := p.enabled ++ [index] }

/-- A fresh process on this driver: no program bound, nothing uploaded,
configured or enabled. -/
def world : World Pipeline :=
  { gl := { current := 0, uploads := [], pointers := [], enabled := [] },
    calls := [], cout := [], defaultShader := 0 }

end Pipeline

/-! ## Basic facts -/

section Basic

variable (drv : Driver σ)

theorem toGLint_range (i : Int) : -2147483648 ≤ toGLint i ∧ toGLint i < 2147483648 := by
  unfold toGLint
  split <;> omega

theorem toGLuint_range (i : Int) : toGLuint i < 4294967296 := by
  unfold toGLuint
  omega

/-- A `GLint` stored in a `GLuint` and read back as a `GLint` is unchanged. -/
theorem toGLint_toGLuint (i : Int) (h1 : -2147483648 ≤ i) (h2 : i < 2147483648) :
    toGLint (toGLuint i) = i := by
  unfold toGLint toGLuint
  split <;> omega

theorem toGLint_toGLuint_toGLint (i : Int) : toGLint (toGLuint (toGLint i)) = toGLint i :=
  toGLint_toGLuint _ (toGLint_range i).1 (toGLint_range i).2

/-- The size of a diagnostic buffer when the log length is a `GLint`. -/
theorem bufferSize_eq (L : Int) (h1 : -2147483648 ≤ L) (h2 : L < 2147483648) :
    static_cast_size_t (if L > 1 then L else 1) = (max L 1).toNat := by
  unfold static_cast_size_t
  split <;> omega

@[simp] theorem vector_char_length (n : Nat) : (vector_char n).length = n := by
  simp [vector_char]

/-- Running `compile` as the composition of its straight-line pieces. -/
theorem compile_eq_stages (logLength : GLint) (self : ShaderType)
    (vertShaderStr fragShaderStr : String) (w : World σ) :
    ShaderType.compile drv logLength self vertShaderStr fragShaderStr w =
      if ShaderType.vertexStatus drv vertShaderStr w = GL_FALSE then
        let v := ShaderType.vertexStage drv vertShaderStr w
        let c6 := glGetShaderiv drv v.1 GL_INFO_LOG_LENGTH logLength v.2.2.2
        let c7 := glGetShaderInfoLog drv v.1 c6.1
          (vector_char (static_cast_size_t (if c6.1 > 1 then c6.1 else 1))) c6.2
        (false, self, cout_line c7.1 c7.2)
      else if ShaderType.fragmentStatus drv vertShaderStr fragShaderStr w = GL_FALSE then
        let v := ShaderType.vertexStage drv vertShaderStr w
        let f := ShaderType.fragmentStage drv vertShaderStr fragShaderStr w
        let c9 := glGetShaderiv drv v.2.1 GL_INFO_LOG_LENGTH logLength f.2
        let c10 := glGetShaderInfoLog drv v.2.1 c9.1
          (vector_char (static_cast_size_t (if c9.1 > 1 then c9.1 else 1))) c9.2
        (false, self, cout_line c10.1 c10.2)
      else if ShaderType.linkStatus drv vertShaderStr fragShaderStr w = GL_FALSE then
        let k := ShaderType.linkStage drv vertShaderStr fragShaderStr w
        let c14 := glGetProgramiv drv k.1 GL_INFO_LOG_LENGTH logLength k.2.2
        let c15 := glGetProgramInfoLog drv k.1 c14.1
          (vector_char (static_cast_size_t (if c14.1 > 1 then c14.1 else 1))) c14.2
        (false, { self with _shaderId := k.1 }, cout_line c15.1 c15.2)
      else
        let v := ShaderType.vertexStage drv vertShaderStr w
        let k := ShaderType.linkStage drv vertShaderStr fragShaderStr w
        let w14 := glDeleteShader drv v.1 k.2.2
        let w15 := glDeleteShader drv v.2.1 w14
        let c16 := glGetUniformLocation drv k.1 self._matrixUniformName w15
        (true, { self with _shaderId := k.1, _matrixUniformId := toGLuint c16.1 }, c16.2) := by
  rfl

open ShaderType

/-- The calls made up to the vertex check. -/
theorem vertexStage_calls (vertShaderStr : String) (w : World σ) :
    (vertexStage drv vertShaderStr w).2.2.2.calls = w.calls ++
      [GLCall.glCreateShader GL_VERTEX_SHADER (vertexStage drv vertShaderStr w).1,
       GLCall.glCreateShader GL_FRAGMENT_SHADER (vertexStage drv vertShaderStr w).2.1,
       GLCall.glShaderSource (vertexStage drv vertShaderStr w).1 1 vertShaderStr,
       GLCall.glCompileShader (vertexStage drv vertShaderStr w).1,
       GLCall.glGetShaderiv (vertexStage drv vertShaderStr w).1 GL_COMPILE_STATUS GL_FALSE
         (vertexStatus drv vertShaderStr w)] := by
  simp [vertexStage, vertexStatus, glCreateShader, glShaderSource, glCompileShader,
    glGetShaderiv, World.record]

/-- The calls made between the vertex check and the fragment check. -/
theorem fragmentStage_calls (vertShaderStr fragShaderStr : String) (w : World σ) :
    (fragmentStage drv vertShaderStr fragShaderStr w).2.calls =
      (vertexStage drv vertShaderStr w).2.2.2.calls ++
      [GLCall.glShaderSource (vertexStage drv vertShaderStr w).2.1 1 fragShaderStr,
       GLCall.glCompileShader (vertexStage drv vertShaderStr w).2.1,
       GLCall.glGetShaderiv (vertexStage drv vertShaderStr w).2.1 GL_COMPILE_STATUS
         (vertexStatus drv vertShaderStr w) (fragmentStatus drv vertShaderStr fragShaderStr w)] := by
  simp [fragmentStage, fragmentStatus, vertexStatus, glShaderSource, glCompileShader,
    glGetShaderiv, World.record]

/-- The calls made between the fragment check and the link check. -/
theorem linkStage_calls (vertShaderStr fragShaderStr : String) (w : World σ) :
    (linkStage drv vertShaderStr fragShaderStr w).2.2.calls =
      (fragmentStage drv vertShaderStr fragShaderStr w).2.calls ++
      [GLCall.glCreateProgram (createdProgram drv vertShaderStr fragShaderStr w),
       GLCall.glAttachShader (createdProgram drv vertShaderStr fragShaderStr w)
         (vertexStage drv vertShaderStr w).1,
       GLCall.glAttachShader (createdProgram drv vertShaderStr fragShaderStr w)
         (vertexStage drv vertShaderStr w).2.1,
       GLCall.glLinkProgram (createdProgram drv vertShaderStr fragShaderStr w),
       GLCall.glGetProgramiv (createdProgram drv vertShaderStr fragShaderStr w) GL_LINK_STATUS
         (fragmentStatus drv vertShaderStr fragShaderStr w)
         (linkStatus drv vertShaderStr fragShaderStr w)] := by
  simp [linkStage, linkStatus, createdProgram, fragmentStatus, glCreateProgram, glAttachShader,
    glLinkProgram, glGetProgramiv, World.record]

/-- Nothing is written to `std::cout` and the static default handle is not
touched up to the vertex check. -/
theorem vertexStage_frame (vertShaderStr : String) (w : World σ) :
    (vertexStage drv vertShaderStr w).2.2.2.cout = w.cout ∧
    (vertexStage drv vertShaderStr w).2.2.2.defaultShader = w.defaultShader := by
  simp [vertexStage, glCreateShader, glShaderSource, glCompileShader, glGetShaderiv,
    World.record]

theorem fragmentStage_frame (vertShaderStr fragShaderStr : String) (w : World σ) :
    (fragmentStage drv vertShaderStr fragShaderStr w).2.cout = w.cout ∧
    (fragmentStage drv vertShaderStr fragShaderStr w).2.defaultShader = w.defaultShader := by
  simp [fragmentStage, vertexStage, glCreateShader, glShaderSource, glCompileShader,
    glGetShaderiv, World.record]

theorem linkStage_frame (vertShaderStr fragShaderStr : String) (w : World σ) :
    (linkStage drv vertShaderStr fragShaderStr w).2.2.cout = w.cout ∧
    (linkStage drv vertShaderStr fragShaderStr w).2.2.defaultShader = w.defaultShader := by
  simp [linkStage, fragmentStage, vertexStage, glCreateShader, glShaderSource, glCompileShader,
    glGetShaderiv, glCreateProgram, glAttachShader, glLinkProgram, glGetProgramiv, World.record]

/-- The status values and the program handle a run sees do not depend on the
instance or on the indeterminate `logLength`: the stages take neither. -/
theorem compile_returns (logLength : GLint) (self : ShaderType)
    (vertShaderStr fragShaderStr : String) (w : World σ) :
    (compile drv logLength self vertShaderStr fragShaderStr w).1 =
      (decide (vertexStatus drv vertShaderStr w ≠ GL_FALSE) &&
       decide (fragmentStatus drv vertShaderStr fragShaderStr w ≠ GL_FALSE) &&
       decide (linkStatus drv vertShaderStr fragShaderStr w ≠ GL_FALSE)) := by
  rw [compile_eq_stages]
  by_cases hv : vertexStatus drv vertShaderStr w = GL_FALSE
  · simp [hv]
  · by_cases hf : fragmentStatus drv vertShaderStr fragShaderStr w = GL_FALSE
    · simp [hv, hf]
    · by_cases hl : linkStatus drv vertShaderStr fragShaderStr w = GL_FALSE
      · simp [hv, hf, hl]
      · simp [hv, hf, hl]

/-- The text read from a zero-filled buffer of at least one byte after the
driver stored `stored` in it is non-empty exactly when the first stored byte
exists and is not zero. -/
theorem c_str_storeAt_ne_nil (n : Nat) (hn : 1 ≤ n) (stored : List char) :
    c_str (storeAt (vector_char n) stored) ≠ [] ↔ ∃ b rest, stored = b :: rest ∧ b ≠ 0 := by
  cases stored with
  | nil =>
    obtain ⟨k, rfl⟩ : ∃ k, n = k + 1 := ⟨n - 1, by omega⟩
    simp [c_str, storeAt, vector_char, List.replicate_succ]
  | cons b rest =>
    by_cases hb : b = 0
    · simp [c_str, storeAt, hb]
    · simp [c_str, storeAt, hb, List.takeWhile_cons]

/-- The vertex failure path (lines 100 to 108). -/
theorem compile_vertexError (logLength : GLint) (self : ShaderType)
    (vertShaderStr fragShaderStr : String) (w : World σ)
    (h : vertexStatus drv vertShaderStr w = GL_FALSE) :
    ∃ (L : Int) (stored : List char),
      (compile drv logLength self vertShaderStr fragShaderStr w).1 = false ∧
      (compile drv logLength self vertShaderStr fragShaderStr w).2.1 = self ∧
      (compile drv logLength self vertShaderStr fragShaderStr w).2.2.calls =
        (vertexStage drv vertShaderStr w).2.2.2.calls ++
          [GLCall.glGetShaderiv (vertexStage drv vertShaderStr w).1 GL_INFO_LOG_LENGTH
             logLength L,
           GLCall.glGetShaderInfoLog (vertexStage drv vertShaderStr w).1 L (max L 1).toNat
             stored] ∧
      (compile drv logLength self vertShaderStr fragShaderStr w).2.2.cout =
        w.cout ++ c_str (storeAt (vector_char (max L 1).toNat) stored) ++ [endl] ∧
      (compile drv logLength self vertShaderStr fragShaderStr w).2.2.defaultShader =
        w.defaultShader := by
  rw [compile_eq_stages, if_pos h]
  have hr := toGLint_range (drv.glGetShaderiv (vertexStage drv vertShaderStr w).1
    GL_INFO_LOG_LENGTH logLength (vertexStage drv vertShaderStr w).2.2.2.gl).1
  refine ⟨(glGetShaderiv drv (vertexStage drv vertShaderStr w).1 GL_INFO_LOG_LENGTH logLength
      (vertexStage drv vertShaderStr w).2.2.2).1,
    (drv.glGetShaderInfoLog (vertexStage drv vertShaderStr w).1
      (glGetShaderiv drv (vertexStage drv vertShaderStr w).1 GL_INFO_LOG_LENGTH logLength
        (vertexStage drv vertShaderStr w).2.2.2).1
      (glGetShaderiv drv (vertexStage drv vertShaderStr w).1 GL_INFO_LOG_LENGTH logLength
        (vertexStage drv vertShaderStr w).2.2.2).2.gl).1, rfl, rfl, ?_, ?_, ?_⟩
  · simp [glGetShaderiv, glGetShaderInfoLog, World.record, cout_line,
      bufferSize_eq _ hr.1 hr.2]
  · simp [glGetShaderiv, glGetShaderInfoLog, World.record, cout_line,
      bufferSize_eq _ hr.1 hr.2, (vertexStage_frame drv vertShaderStr w).1]
  · simp [glGetShaderiv, glGetShaderInfoLog, World.record, cout_line,
      (vertexStage_frame drv vertShaderStr w).2]

/-- The fragment failure path (lines 116 to 124). -/
theorem compile_fragmentError (logLength : GLint) (self : ShaderType)
    (vertShaderStr fragShaderStr : String) (w : World σ)
    (hv : vertexStatus drv vertShaderStr w ≠ GL_FALSE)
    (h : fragmentStatus drv vertShaderStr fragShaderStr w = GL_FALSE) :
    ∃ (L : Int) (stored : List char),
      (compile drv logLength self vertShaderStr fragShaderStr w).1 = false ∧
      (compile drv logLength self vertShaderStr fragShaderStr w).2.1 = self ∧
      (compile drv logLength self vertShaderStr fragShaderStr w).2.2.calls =
        (fragmentStage drv vertShaderStr fragShaderStr w).2.calls ++
          [GLCall.glGetShaderiv (vertexStage drv vertShaderStr w).2.1 GL_INFO_LOG_LENGTH
             logLength L,
           GLCall.glGetShaderInfoLog (vertexStage drv vertShaderStr w).2.1 L (max L 1).toNat
             stored] ∧
      (compile drv logLength self vertShaderStr fragShaderStr w).2.2.cout =
        w.cout ++ c_str (storeAt (vector_char (max L 1).toNat) stored) ++ [endl] ∧
      (compile drv logLength self vertShaderStr fragShaderStr w).2.2.defaultShader =
        w.defaultShader := by
  rw [compile_eq_stages, if_neg hv, if_pos h]
  have hr := toGLint_range (drv.glGetShaderiv (vertexStage drv vertShaderStr w).2.1
    GL_INFO_LOG_LENGTH logLength (fragmentStage drv vertShaderStr fragShaderStr w).2.gl).1
  refine ⟨(glGetShaderiv drv (vertexStage drv vertShaderStr w).2.1 GL_INFO_LOG_LENGTH logLength
      (fragmentStage drv vertShaderStr fragShaderStr w).2).1,
    (drv.glGetShaderInfoLog (vertexStage drv vertShaderStr w).2.1
      (glGetShaderiv drv (vertexStage drv vertShaderStr w).2.1 GL_INFO_LOG_LENGTH logLength
        (fragmentStage drv vertShaderStr fragShaderStr w).2).1
      (glGetShaderiv drv (vertexStage drv vertShaderStr w).2.1 GL_INFO_LOG_LENGTH logLength
        (fragmentStage drv vertShaderStr fragShaderStr w).2).2.gl).1, rfl, rfl, ?_, ?_, ?_⟩
  · simp [glGetShaderiv, glGetShaderInfoLog, World.record, cout_line,
      bufferSize_eq _ hr.1 hr.2]
  · simp [glGetShaderiv, glGetShaderInfoLog, World.record, cout_line,
      bufferSize_eq _ hr.1 hr.2, (fragmentStage_frame drv vertShaderStr fragShaderStr w).1]
  · simp [glGetShaderiv, glGetShaderInfoLog, World.record, cout_line,
      (fragmentStage_frame drv vertShaderStr fragShaderStr w).2]

/-- The link failure path (lines 132 to 140). -/
theorem compile_linkError (logLength : GLint) (self : ShaderType)
    (vertShaderStr fragShaderStr : String) (w : World σ)
    (hv : vertexStatus drv vertShaderStr w ≠ GL_FALSE)
    (hf : fragmentStatus drv vertShaderStr fragShaderStr w ≠ GL_FALSE)
    (h : linkStatus drv vertShaderStr fragShaderStr w = GL_FALSE) :
    ∃ (L : Int) (stored : List char),
      (compile drv logLength self vertShaderStr fragShaderStr w).1 = false ∧
      (compile drv logLength self vertShaderStr fragShaderStr w).2.1 =
        { self with _shaderId := createdProgram drv vertShaderStr fragShaderStr w } ∧
      (compile drv logLength self vertShaderStr fragShaderStr w).2.2.calls =
        (linkStage drv vertShaderStr fragShaderStr w).2.2.calls ++
          [GLCall.glGetProgramiv (createdProgram drv vertShaderStr fragShaderStr w)
             GL_INFO_LOG_LENGTH logLength L,
           GLCall.glGetProgramInfoLog (createdProgram drv vertShaderStr fragShaderStr w) L
             (max L 1).toNat stored] ∧
      (compile drv logLength self vertShaderStr fragShaderStr w).2.2.cout =
        w.cout ++ c_str (storeAt (vector_char (max L 1).toNat) stored) ++ [endl] ∧
      (compile drv logLength self vertShaderStr fragShaderStr w).2.2.defaultShader =
        w.defaultShader := by
  rw [compile_eq_stages, if_neg hv, if_neg hf, if_pos h]
  have hr := toGLint_range (drv.glGetProgramiv (linkStage drv vertShaderStr fragShaderStr w).1
    GL_INFO_LOG_LENGTH logLength (linkStage drv vertShaderStr fragShaderStr w).2.2.gl).1
  refine ⟨(glGetProgramiv drv (linkStage drv vertShaderStr fragShaderStr w).1
      GL_INFO_LOG_LENGTH logLength (linkStage drv vertShaderStr fragShaderStr w).2.2).1,
    (drv.glGetProgramInfoLog (linkStage drv vertShaderStr fragShaderStr w).1
      (glGetProgramiv drv (linkStage drv vertShaderStr fragShaderStr w).1
        GL_INFO_LOG_LENGTH logLength (linkStage drv vertShaderStr fragShaderStr w).2.2).1
      (glGetProgramiv drv (linkStage drv vertShaderStr fragShaderStr w).1
        GL_INFO_LOG_LENGTH logLength (linkStage drv vertShaderStr fragShaderStr w).2.2).2.gl).1,
    rfl, rfl, ?_, ?_, ?_⟩
  · simp [glGetProgramiv, glGetProgramInfoLog, World.record, cout_line, createdProgram,
      bufferSize_eq _ hr.1 hr.2]
  · simp [glGetProgramiv, glGetProgramInfoLog, World.record, cout_line,
      bufferSize_eq _ hr.1 hr.2, (linkStage_frame drv vertShaderStr fragShaderStr w).1]
  · simp [glGetProgramiv, glGetProgramInfoLog, World.record, cout_line,
      (linkStage_frame drv vertShaderStr fragShaderStr w).2]

/-- The success path (lines 142 to 147). -/
theorem compile_linked (logLength : GLint) (self : ShaderType)
    (vertShaderStr fragShaderStr : String) (w : World σ)
    (hv : vertexStatus drv vertShaderStr w ≠ GL_FALSE)
    (hf : fragmentStatus drv vertShaderStr fragShaderStr w ≠ GL_FALSE)
    (hl : linkStatus drv vertShaderStr fragShaderStr w ≠ GL_FALSE) :
    ∃ (loc : Int),
      -2147483648 ≤ loc ∧ loc < 2147483648 ∧
      (compile drv logLength self vertShaderStr fragShaderStr w).1 = true ∧
      (compile drv logLength self vertShaderStr fragShaderStr w).2.1 =
        { self with _shaderId := createdProgram drv vertShaderStr fragShaderStr w,
                    _matrixUniformId := toGLuint loc } ∧
      (compile drv logLength self vertShaderStr fragShaderStr w).2.2.calls =
        (linkStage drv vertShaderStr fragShaderStr w).2.2.calls ++
          [GLCall.glDeleteShader (vertexStage drv vertShaderStr w).1,
           GLCall.glDeleteShader (vertexStage drv vertShaderStr w).2.1,
           GLCall.glGetUniformLocation (createdProgram drv vertShaderStr fragShaderStr w)
             self._matrixUniformName loc] ∧
      (compile drv logLength self vertShaderStr fragShaderStr w).2.2.cout = w.cout ∧
      (compile drv logLength self vertShaderStr fragShaderStr w).2.2.defaultShader =
        w.defaultShader := by
  rw [compile_eq_stages, if_neg hv, if_neg hf, if_neg hl]
  refine ⟨(glGetUniformLocation drv (linkStage drv vertShaderStr fragShaderStr w).1
      self._matrixUniformName
      (glDeleteShader drv (vertexStage drv vertShaderStr w).2.1
        (glDeleteShader drv (vertexStage drv vertShaderStr w).1
          (linkStage drv vertShaderStr fragShaderStr w).2.2))).1,
    (toGLint_range _).1, (toGLint_range _).2, rfl, rfl, ?_, ?_, ?_⟩
  · simp [glGetUniformLocation, glDeleteShader, World.record, createdProgram]
  · simp [glGetUniformLocation, glDeleteShader, World.record,
      (linkStage_frame drv vertShaderStr fragShaderStr w).1]
  · simp [glGetUniformLocation, glDeleteShader, World.record,
      (linkStage_frame drv vertShaderStr fragShaderStr w).2]

end Basic

/-! ## Results on `compile` -/

open ShaderType

/-- C1: for every instance (a fresh one included) and every pair of sources, if
the driver reports success at the vertex check, at the fragment check and at the
link check, and `glCreateProgram` returns a nonzero handle, then `compile`
returns `true` and `id()` afterwards is the handle `glCreateProgram` returned,
hence nonzero; that handle is the one recorded for `glCreateProgram` in the call
log, and it is the driver's answer to `glCreateProgram`, read as a `GLuint`, in
the driver state reached at the fragment check. -/
theorem compile_true_of_driver_success (drv : Driver σ) (logLength : GLint) (self : ShaderType)
    (vertShaderStr fragShaderStr : String) (w : World σ)
    (hv : vertexStatus drv vertShaderStr w ≠ GL_FALSE)
    (hf : fragmentStatus drv vertShaderStr fragShaderStr w ≠ GL_FALSE)
    (hl : linkStatus drv vertShaderStr fragShaderStr w ≠ GL_FALSE)
    (hp : createdProgram drv vertShaderStr fragShaderStr w ≠ 0) :
    (compile drv logLength self vertShaderStr fragShaderStr w).1 = true ∧
    (compile drv logLength self vertShaderStr fragShaderStr w).2.1.id =
      createdProgram drv vertShaderStr fragShaderStr w ∧
    (compile drv logLength self vertShaderStr fragShaderStr w).2.1.id ≠ 0 ∧
    GLCall.glCreateProgram (createdProgram drv vertShaderStr fragShaderStr w) ∈
      (compile drv logLength self vertShaderStr fragShaderStr w).2.2.calls ∧
    createdProgram drv vertShaderStr fragShaderStr w =
      toGLuint (drv.glCreateProgram (fragmentStage drv vertShaderStr fragShaderStr w).2.gl).1 := by
  obtain ⟨loc, -, -, h1, h2, h3, -, -⟩ :=
    compile_linked drv logLength self vertShaderStr fragShaderStr w hv hf hl
  refine ⟨h1, ?_, ?_, ?_, rfl⟩
  · rw [h2]; rfl
  · rw [h2]; exact hp
  · rw [h3, linkStage_calls]; simp

/-- C1 at a concrete input: a fresh instance on the test driver with all three
stages succeeding; the program handle is 3. -/
theorem compile_true_of_driver_success_witness :
    vertexStatus Mock.driver "v" (Mock.world true true true []) ≠ GL_FALSE ∧
    fragmentStatus Mock.driver "v" "f" (Mock.world true true true []) ≠ GL_FALSE ∧
    linkStatus Mock.driver "v" "f" (Mock.world true true true []) ≠ GL_FALSE ∧
    createdProgram Mock.driver "v" "f" (Mock.world true true true []) = 3 ∧
    (compile Mock.driver 0 construct "v" "f" (Mock.world true true true [])).1 = true ∧
    (compile Mock.driver 0 construct "v" "f" (Mock.world true true true [])).2.1.id = 3 :=
  ⟨by decide, by decide, by decide, by decide,
    (compile_true_of_driver_success Mock.driver 0 construct "v" "f"
      (Mock.world true true true []) (by decide) (by decide) (by decide) (by decide)).1,
    by decide⟩

/-- C2 fails as stated: on the test driver with a failing vertex stage and an
empty info log, `compile` returns `false` and writes only the line end to
`std::cout`; the diagnostic text is empty. -/
theorem compile_empty_diagnostic :
    vertexStatus Mock.driver "v" (Mock.world false true true []) = GL_FALSE ∧
    (compile Mock.driver 0 construct "v" "f" (Mock.world false true true [])).1 = false ∧
    (compile Mock.driver 0 construct "v" "f" (Mock.world false true true [])).2.2.cout =
      (Mock.world false true true []).cout ++ [] ++ [endl] := by
  decide

/-- C2 as amended: when the driver reports a compile failure at the vertex check
or at the fragment check, `compile` returns `false` and writes to `std::cout` the
zero-terminated text found in the diagnostic buffer after the info-log query,
followed by a line end; the bytes `stored` are the ones the logged
`glGetShaderInfoLog` call stored in the buffer, and the text is non-empty exactly
when the first stored byte exists and is not zero. -/
theorem compile_false_of_stage_failure (drv : Driver σ) (logLength : GLint)
    (self : ShaderType) (vertShaderStr fragShaderStr : String) (w : World σ)
    (h : vertexStatus drv vertShaderStr w = GL_FALSE ∨
      (vertexStatus drv vertShaderStr w ≠ GL_FALSE ∧
        fragmentStatus drv vertShaderStr fragShaderStr w = GL_FALSE)) :
    (compile drv logLength self vertShaderStr fragShaderStr w).1 = false ∧
    ∃ (shader : GLuint) (L : Int) (n : Nat) (stored text : List char),
      (compile drv logLength self vertShaderStr fragShaderStr w).2.2.calls.getLast? =
        some (GLCall.glGetShaderInfoLog shader L n stored) ∧
      text = c_str (storeAt (vector_char n) stored) ∧
      (compile drv logLength self vertShaderStr fragShaderStr w).2.2.cout =
        w.cout ++ text ++ [endl] ∧
      (text ≠ [] ↔ ∃ b rest, stored = b :: rest ∧ b ≠ 0) := by
  rcases h with h | ⟨hv, h⟩
  · obtain ⟨L, stored, h1, -, h3, h4, -⟩ :=
      compile_vertexError drv logLength self vertShaderStr fragShaderStr w h
    refine ⟨h1, (vertexStage drv vertShaderStr w).1, L, (max L 1).toNat, stored, _, ?_, rfl, h4, ?_⟩
    · rw [h3]; simp
    · exact c_str_storeAt_ne_nil _ (by omega) stored
  · obtain ⟨L, stored, h1, -, h3, h4, -⟩ :=
      compile_fragmentError drv logLength self vertShaderStr fragShaderStr w hv h
    refine ⟨h1, (vertexStage drv vertShaderStr w).2.1, L, (max L 1).toNat, stored, _, ?_, rfl, h4,
      ?_⟩
    · rw [h3]; simp
    · exact c_str_storeAt_ne_nil _ (by omega) stored

/-- C2 as amended, at a concrete input: the test driver with a failing vertex
stage and the info log "err". -/
theorem compile_false_of_stage_failure_witness :
    vertexStatus Mock.driver "v" (Mock.world false true true [101, 114, 114]) = GL_FALSE ∧
    (compile Mock.driver 0 construct "v" "f" (Mock.world false true true [101, 114, 114])).1 =
      false ∧
    (compile Mock.driver 0 construct "v" "f"
      (Mock.world false true true [101, 114, 114])).2.2.cout = [101, 114, 114, endl] :=
  ⟨by decide,
    (compile_false_of_stage_failure Mock.driver 0 construct "v" "f"
      (Mock.world false true true [101, 114, 114]) (Or.inl (by decide))).1,
    by decide⟩

/-- C3 fails as stated: on the test driver with both compile stages succeeding
and a failing link, `compile` on a fresh instance (handle 0) returns `false` and
`id()` afterwards is 3, the handle of the program that failed to link. -/
theorem compile_link_failure_keeps_handle :
    construct.id = 0 ∧
    (compile Mock.driver 0 construct "v" "f" (Mock.world true true false [])).1 = false ∧
    (compile Mock.driver 0 construct "v" "f" (Mock.world true true false [])).2.1.id = 3 := by
  decide

/-- C3 as amended: for an instance whose handle is 0, when `compile` returns
`false` because of a vertex-compile or fragment-compile error, `id()` is still 0
afterwards; when it returns `false` after both compile stages succeeded, the
cause is a link error and `id()` afterwards is the handle `glCreateProgram`
returned. -/
theorem id_after_failed_compile (drv : Driver σ) (logLength : GLint) (self : ShaderType)
    (vertShaderStr fragShaderStr : String) (w : World σ)
    (h0 : self.id = 0)
    (hfail : (compile drv logLength self vertShaderStr fragShaderStr w).1 = false) :
    ((vertexStatus drv vertShaderStr w = GL_FALSE ∨
        fragmentStatus drv vertShaderStr fragShaderStr w = GL_FALSE) →
      (compile drv logLength self vertShaderStr fragShaderStr w).2.1.id = 0) ∧
    ((vertexStatus drv vertShaderStr w ≠ GL_FALSE ∧
        fragmentStatus drv vertShaderStr fragShaderStr w ≠ GL_FALSE) →
      linkStatus drv vertShaderStr fragShaderStr w = GL_FALSE ∧
      (compile drv logLength self vertShaderStr fragShaderStr w).2.1.id =
        createdProgram drv vertShaderStr fragShaderStr w) := by
  constructor
  · intro h
    by_cases hv : vertexStatus drv vertShaderStr w = GL_FALSE
    · obtain ⟨L, stored, -, h2, -⟩ :=
        compile_vertexError drv logLength self vertShaderStr fragShaderStr w hv
      rw [h2]; exact h0
    · have hf : fragmentStatus drv vertShaderStr fragShaderStr w = GL_FALSE := by
        rcases h with h | h
        · exact absurd h hv
        · exact h
      obtain ⟨L, stored, -, h2, -⟩ :=
        compile_fragmentError drv logLength self vertShaderStr fragShaderStr w hv hf
      rw [h2]; exact h0
  · rintro ⟨hv, hf⟩
    have hl : linkStatus drv vertShaderStr fragShaderStr w = GL_FALSE := by
      by_contra hl
      obtain ⟨loc, -, -, h1, -⟩ :=
        compile_linked drv logLength self vertShaderStr fragShaderStr w hv hf hl
      rw [h1] at hfail
      exact Bool.noConfusion hfail
    obtain ⟨L, stored, -, h2, -⟩ :=
      compile_linkError drv logLength self vertShaderStr fragShaderStr w hv hf hl
    refine ⟨hl, ?_⟩
    rw [h2]; rfl

/-- C3 as amended, at a concrete input: a fresh instance on the test driver with
a failing fragment stage keeps the handle 0. -/
theorem id_after_failed_compile_witness :
    construct.id = 0 ∧
    (compile Mock.driver 0 construct "v" "f" (Mock.world true false true [])).1 = false ∧
    fragmentStatus Mock.driver "v" "f" (Mock.world true false true []) = GL_FALSE ∧
    (compile Mock.driver 0 construct "v" "f" (Mock.world true false true [])).2.1.id = 0 :=
  ⟨by decide, by decide, by decide,
    (id_after_failed_compile Mock.driver 0 construct "v" "f" (Mock.world true false true [])
      (by decide) (by decide)).1 (Or.inr (by decide))⟩

/-- C9: on each of the three failure paths of `compile` the last two driver
calls are the log-length query, answering some `L`, and the info-log query with
maximum length `L` and a buffer of exactly `max L 1` bytes; for every `L` that
size is at least 1 and at least `L`. -/
theorem diagnostic_buffer_size (drv : Driver σ) (logLength : GLint) (self : ShaderType)
    (vertShaderStr fragShaderStr : String) (w : World σ) :
    (vertexStatus drv vertShaderStr w = GL_FALSE →
      ∃ (L : Int) (stored : List char),
        (compile drv logLength self vertShaderStr fragShaderStr w).2.2.calls =
          (vertexStage drv vertShaderStr w).2.2.2.calls ++
            [GLCall.glGetShaderiv (vertexStage drv vertShaderStr w).1 GL_INFO_LOG_LENGTH
               logLength L,
             GLCall.glGetShaderInfoLog (vertexStage drv vertShaderStr w).1 L (max L 1).toNat
               stored]) ∧
    (vertexStatus drv vertShaderStr w ≠ GL_FALSE →
      fragmentStatus drv vertShaderStr fragShaderStr w = GL_FALSE →
      ∃ (L : Int) (stored : List char),
        (compile drv logLength self vertShaderStr fragShaderStr w).2.2.calls =
          (fragmentStage drv vertShaderStr fragShaderStr w).2.calls ++
            [GLCall.glGetShaderiv (vertexStage drv vertShaderStr w).2.1 GL_INFO_LOG_LENGTH
               logLength L,
             GLCall.glGetShaderInfoLog (vertexStage drv vertShaderStr w).2.1 L (max L 1).toNat
               stored]) ∧
    (vertexStatus drv vertShaderStr w ≠ GL_FALSE →
      fragmentStatus drv vertShaderStr fragShaderStr w ≠ GL_FALSE →
      linkStatus drv vertShaderStr fragShaderStr w = GL_FALSE →
      ∃ (L : Int) (stored : List char),
        (compile drv logLength self vertShaderStr fragShaderStr w).2.2.calls =
          (linkStage drv vertShaderStr fragShaderStr w).2.2.calls ++
            [GLCall.glGetProgramiv (createdProgram drv vertShaderStr fragShaderStr w)
               GL_INFO_LOG_LENGTH logLength L,
             GLCall.glGetProgramInfoLog (createdProgram drv vertShaderStr fragShaderStr w) L
               (max L 1).toNat stored]) ∧
    (∀ L : Int, ((max L 1).toNat : Int) = max L 1 ∧ 1 ≤ (max L 1).toNat ∧
      L ≤ ((max L 1).toNat : Int)) := by
  refine ⟨?_, ?_, ?_, ?_⟩
  · intro hv
    obtain ⟨L, stored, -, -, h3, -⟩ :=
      compile_vertexError drv logLength self vertShaderStr fragShaderStr w hv
    exact ⟨L, stored, h3⟩
  · intro hv hf
    obtain ⟨L, stored, -, -, h3, -⟩ :=
      compile_fragmentError drv logLength self vertShaderStr fragShaderStr w hv hf
    exact ⟨L, stored, h3⟩
  · intro hv hf hl
    obtain ⟨L, stored, -, -, h3, -⟩ :=
      compile_linkError drv logLength self vertShaderStr fragShaderStr w hv hf hl
    exact ⟨L, stored, h3⟩
  · intro L
    omega

/-- C9 at concrete inputs: the vertex failure path on the test driver with an
empty log (the driver reports `L = 0`, the buffer has one byte) and the link
failure path with the log "err" (`L = 4`, four bytes). -/
theorem diagnostic_buffer_size_witness :
    (vertexStatus Mock.driver "v" (Mock.world false true true []) = GL_FALSE ∧
      (compile Mock.driver 0 construct "v" "f"
        (Mock.world false true true [])).2.2.calls.getLast? =
        some (GLCall.glGetShaderInfoLog 1 0 1 []) ∧
      ∃ (L : Int) (stored : List char),
        (compile Mock.driver 0 construct "v" "f" (Mock.world false true true [])).2.2.calls =
          (vertexStage Mock.driver "v" (Mock.world false true true [])).2.2.2.calls ++
            [GLCall.glGetShaderiv (vertexStage Mock.driver "v"
               (Mock.world false true true [])).1 GL_INFO_LOG_LENGTH 0 L,
             GLCall.glGetShaderInfoLog (vertexStage Mock.driver "v"
               (Mock.world false true true [])).1 L (max L 1).toNat stored]) ∧
    (linkStatus Mock.driver "v" "f" (Mock.world true true false [101, 114, 114]) = GL_FALSE ∧
      (compile Mock.driver 0 construct "v" "f"
        (Mock.world true true false [101, 114, 114])).2.2.calls.getLast? =
        some (GLCall.glGetProgramInfoLog 3 4 4 [101, 114, 114, 0]) ∧
      ∃ (L : Int) (stored : List char),
        (compile Mock.driver 0 construct "v" "f"
          (Mock.world true true false [101, 114, 114])).2.2.calls =
          (linkStage Mock.driver "v" "f" (Mock.world true true false [101, 114, 114])).2.2.calls ++
            [GLCall.glGetProgramiv (createdProgram Mock.driver "v" "f"
               (Mock.world true true false [101, 114, 114])) GL_INFO_LOG_LENGTH 0 L,
             GLCall.glGetProgramInfoLog (createdProgram Mock.driver "v" "f"
               (Mock.world true true false [101, 114, 114])) L (max L 1).toNat stored]) :=
  ⟨⟨by decide, by decide,
      (diagnostic_buffer_size Mock.driver 0 construct "v" "f"
        (Mock.world false true true [])).1 (by decide)⟩,
    ⟨by decide, by decide,
      (diagnostic_buffer_size Mock.driver 0 construct "v" "f"
        (Mock.world true true false [101, 114, 114])).2.2.1 (by decide) (by decide) (by decide)⟩⟩

/-- C10: a `compile` call that fails at the vertex or at the fragment check
leaves every data member of the instance (the program handle and the cached
uniform location among them) as it was, and none of the driver calls it makes is
`glCreateProgram` or `glDeleteShader`.  When it fails at the vertex check it makes
exactly seven calls: the two `glCreateShader`, then `glShaderSource` with the
vertex source and `glCompileShader` on the vertex shader, the status query and
the two log queries; no source is given to the fragment shader and it is not
compiled. -/
theorem compile_stage_failure_frame (drv : Driver σ) (logLength : GLint) (self : ShaderType)
    (vertShaderStr fragShaderStr : String) (w : World σ)
    (h : vertexStatus drv vertShaderStr w = GL_FALSE ∨
      (vertexStatus drv vertShaderStr w ≠ GL_FALSE ∧
        fragmentStatus drv vertShaderStr fragShaderStr w = GL_FALSE)) :
    (compile drv logLength self vertShaderStr fragShaderStr w).1 = false ∧
    (compile drv logLength self vertShaderStr fragShaderStr w).2.1 = self ∧
    ∃ new : List GLCall,
      (compile drv logLength self vertShaderStr fragShaderStr w).2.2.calls = w.calls ++ new ∧
      (∀ c ∈ new, c.isCreateProgram = false ∧ c.isDeleteShader = false) ∧
      (vertexStatus drv vertShaderStr w = GL_FALSE →
        ∃ (vertShader fragShader : GLuint) (L : Int) (n : Nat) (stored : List char),
          new =
            [GLCall.glCreateShader GL_VERTEX_SHADER vertShader,
             GLCall.glCreateShader GL_FRAGMENT_SHADER fragShader,
             GLCall.glShaderSource vertShader 1 vertShaderStr,
             GLCall.glCompileShader vertShader,
             GLCall.glGetShaderiv vertShader GL_COMPILE_STATUS GL_FALSE GL_FALSE,
             GLCall.glGetShaderiv vertShader GL_INFO_LOG_LENGTH logLength L,
             GLCall.glGetShaderInfoLog vertShader L n stored]) := by
  rcases h with h | ⟨hv, h⟩
  · obtain ⟨L, stored, h1, h2, h3, -, -⟩ :=
      compile_vertexError drv logLength self vertShaderStr fragShaderStr w h
    rw [vertexStage_calls, List.append_assoc, h] at h3
    refine ⟨h1, h2, _, h3, ?_, ?_⟩
    · simp [GLCall.isCreateProgram, GLCall.isDeleteShader]
    · intro _
      exact ⟨_, _, L, _, stored, rfl⟩
  · obtain ⟨L, stored, h1, h2, h3, -, -⟩ :=
      compile_fragmentError drv logLength self vertShaderStr fragShaderStr w hv h
    rw [fragmentStage_calls, vertexStage_calls, List.append_assoc, List.append_assoc] at h3
    refine ⟨h1, h2, _, h3, ?_, ?_⟩
    · simp [GLCall.isCreateProgram, GLCall.isDeleteShader]
    · intro h'
      exact absurd h' hv

/-- C10 at a concrete input: a vertex failure on an instance that already holds
a compiled program (handle 7, uniform location 2). -/
theorem compile_stage_failure_frame_witness :
    vertexStatus Mock.driver "v" (Mock.world false true true []) = GL_FALSE ∧
    (compile Mock.driver 0 { construct with _shaderId := 7, _matrixUniformId := 2 } "v" "f"
      (Mock.world false true true [])).2.1 =
      { construct with _shaderId := 7, _matrixUniformId := 2 } :=
  ⟨by decide,
    (compile_stage_failure_frame Mock.driver 0
      { construct with _shaderId := 7, _matrixUniformId := 2 } "v" "f"
      (Mock.world false true true []) (Or.inl (by decide))).2.1⟩

/-! ## Results on `compileDefaultShader` -/

/-- Once the static default handle is nonzero, a call of `compileDefaultShader`
returns `true` and changes nothing. -/
theorem compileDefaultShader_of_default_ne_zero (drv : Driver σ) (logLength : GLint)
    (self : ShaderType) (w : World σ) (h : w.defaultShader ≠ 0) :
    compileDefaultShader drv logLength self w = (true, self, w) := by
  simp [compileDefaultShader, h]

/-- Once the static default handle is nonzero, calling `compileDefaultShader` on
each instance of a list returns `true` each time and changes nothing. -/
theorem compileDefaultShaderOnEach_of_default_ne_zero (drv : Driver σ) (logLength : GLint)
    (instances : List ShaderType) (w : World σ) (h : w.defaultShader ≠ 0) :
    compileDefaultShaderOnEach drv logLength instances w =
      (instances.map (fun self => (true, self)), w) := by
  induction instances with
  | nil => rfl
  | cons self rest ih =>
    simp [compileDefaultShaderOnEach, compileDefaultShader_of_default_ne_zero drv logLength self w h,
      ih]

/-- C4 fails as stated: on the test driver with a failing vertex stage, two
fresh instances sharing the static default handle (initially 0) both get
`false` from `compileDefaultShader`, and both calls run `compile`: the vertex
shader is compiled twice. -/
theorem default_recompiled_after_failure :
    (Mock.world false true true []).defaultShader = 0 ∧
    (compileDefaultShaderOnEach Mock.driver 0 [construct, construct]
      (Mock.world false true true [])).1.map Prod.fst = [false, false] ∧
    ((compileDefaultShaderOnEach Mock.driver 0 [construct, construct]
      (Mock.world false true true [])).2.calls.filter GLCall.isCompileShader).length = 2 := by
  decide

/-- C4 as amended: if the static default handle is 0 and the first call's
`compile` of the embedded sources succeeds with a nonzero program handle, then
calling `compileDefaultShader` once on each of `N = 1 + rest.length` instances
returns `true` every time, leaves every instance after the first unchanged, and
the world after all `N` calls is the world after that one `compile` with the
static default handle set to the new program: only the first call runs `compile`
and the driver. -/
theorem default_compiled_once (drv : Driver σ) (logLength : GLint) (first : ShaderType)
    (rest : List ShaderType) (w : World σ)
    (h0 : w.defaultShader = 0)
    (hok : (compile drv logLength first vshader fshader w).1 = true)
    (hid : (compile drv logLength first vshader fshader w).2.1.id ≠ 0) :
    (compileDefaultShaderOnEach drv logLength (first :: rest) w).1 =
      (true, (compile drv logLength first vshader fshader w).2.1) ::
        rest.map (fun self => (true, self)) ∧
    (compileDefaultShaderOnEach drv logLength (first :: rest) w).2 =
      { (compile drv logLength first vshader fshader w).2.2 with
        defaultShader := (compile drv logLength first vshader fshader w).2.1.id } ∧
    (compileDefaultShaderOnEach drv logLength (first :: rest) w).2.calls =
      (compile drv logLength first vshader fshader w).2.2.calls := by
  have h1 : compileDefaultShader drv logLength first w =
      (true, (compile drv logLength first vshader fshader w).2.1,
        { (compile drv logLength first vshader fshader w).2.2 with
          defaultShader := (compile drv logLength first vshader fshader w).2.1.id }) := by
    simp [compileDefaultShader, h0, hok, ShaderType.id]
  have h2 := compileDefaultShaderOnEach_of_default_ne_zero drv logLength rest
    { (compile drv logLength first vshader fshader w).2.2 with
      defaultShader := (compile drv logLength first vshader fshader w).2.1.id } hid
  simp [compileDefaultShaderOnEach, h1, h2]

/-- C4 as amended, at a concrete input: three fresh instances on the test driver
with all stages succeeding; sixteen driver calls are made in all, those of one
`compile`. -/
theorem default_compiled_once_witness :
    (Mock.world true true true []).defaultShader = 0 ∧
    (compile Mock.driver 0 construct vshader fshader (Mock.world true true true [])).1 = true ∧
    (compile Mock.driver 0 construct vshader fshader
      (Mock.world true true true [])).2.1.id = 3 ∧
    (compileDefaultShaderOnEach Mock.driver 0 [construct, construct, construct]
      (Mock.world true true true [])).1.map Prod.fst = [true, true, true] ∧
    (compileDefaultShaderOnEach Mock.driver 0 [construct, construct, construct]
      (Mock.world true true true [])).2.calls.length = 16 ∧
    (compileDefaultShaderOnEach Mock.driver 0 [construct, construct, construct]
      (Mock.world true true true [])).2.calls =
      (compile Mock.driver 0 construct vshader fshader
        (Mock.world true true true [])).2.2.calls :=
  ⟨by decide, by decide, by decide, by decide, by decide,
    (default_compiled_once Mock.driver 0 construct [construct, construct]
      (Mock.world true true true []) (by decide) (by decide) (by decide)).2.2⟩

/-- C8: when the static default handle is nonzero (some instance's
`compileDefaultShader` has succeeded with a nonzero program handle),
`compileDefaultShader` on a fresh instance returns `true`, leaves the world as it
was (no driver call, driver state and call log unchanged) and leaves the
instance as constructed, with `id()` equal to 0 and the cached uniform location
equal to 0. -/
theorem compileDefaultShader_fresh_after_default (drv : Driver σ) (logLength : GLint)
    (w : World σ) (h : w.defaultShader ≠ 0) :
    (compileDefaultShader drv logLength construct w).1 = true ∧
    (compileDefaultShader drv logLength construct w).2.2 = w ∧
    (compileDefaultShader drv logLength construct w).2.2.calls = w.calls ∧
    (compileDefaultShader drv logLength construct w).2.1 = construct ∧
    (compileDefaultShader drv logLength construct w).2.1.id = 0 ∧
    (compileDefaultShader drv logLength construct w).2.1._matrixUniformId = 0 := by
  rw [compileDefaultShader_of_default_ne_zero drv logLength construct w h]
  exact ⟨rfl, rfl, rfl, rfl, rfl, rfl⟩

/-- C8 at a concrete input: the world left by a successful `compileDefaultShader`
of one fresh instance on the test driver (default handle 3), then a second fresh
instance. -/
theorem compileDefaultShader_fresh_after_default_witness :
    (compileDefaultShader Mock.driver 0 construct (Mock.world true true true [])).1 = true ∧
    (compileDefaultShader Mock.driver 0 construct
      (Mock.world true true true [])).2.2.defaultShader = 3 ∧
    (compileDefaultShader Mock.driver 0 construct
      (compileDefaultShader Mock.driver 0 construct (Mock.world true true true [])).2.2).1 =
      true ∧
    (compileDefaultShader Mock.driver 0 construct
      (compileDefaultShader Mock.driver 0 construct (Mock.world true true true [])).2.2).2.1.id =
      0 :=
  ⟨by decide, by decide,
    (compileDefaultShader_fresh_after_default Mock.driver 0
      (compileDefaultShader Mock.driver 0 construct (Mock.world true true true [])).2.2
      (by decide)).1,
    (compileDefaultShader_fresh_after_default Mock.driver 0
      (compileDefaultShader Mock.driver 0 construct (Mock.world true true true [])).2.2
      (by decide)).2.2.2.2.1⟩

/-! ## Results on `setupAttributes`, `setupMatrices` and the names -/

/-- The calls of `setupAttributes`, with the two locations the driver answered. -/
theorem setupAttributes_log (drv : Driver σ) (self : ShaderType) (w : World σ) :
    ∃ (vertexAttrib colorAttrib : Int),
      (setupAttributes drv self w).calls = w.calls ++
        [GLCall.glGetAttribLocation self.id self._vertexAttributeName vertexAttrib,
         GLCall.glVertexAttribPointer (toGLuint vertexAttrib) 3 GL_FLOAT false 28 0,
         GLCall.glEnableVertexAttribArray (toGLuint vertexAttrib),
         GLCall.glGetAttribLocation self.id self._colorAttributeName colorAttrib,
         GLCall.glVertexAttribPointer (toGLuint colorAttrib) 4 GL_FLOAT false 28 12,
         GLCall.glEnableVertexAttribArray (toGLuint colorAttrib)] ∧
      vertexAttrib = (glGetAttribLocation drv self.id self._vertexAttributeName w).1 ∧
      toGLint (toGLuint vertexAttrib) = vertexAttrib ∧
      toGLint (toGLuint colorAttrib) = colorAttrib := by
  refine ⟨(glGetAttribLocation drv self.id self._vertexAttributeName w).1,
    toGLint (drv.glGetAttribLocation self.id self._colorAttributeName
      (glEnableVertexAttribArray drv
        (toGLuint (glGetAttribLocation drv self.id self._vertexAttributeName w).1)
        (glVertexAttribPointer drv
          (toGLuint (glGetAttribLocation drv self.id self._vertexAttributeName w).1)
          (sizeof_vec3 / sizeof_float) GL_FLOAT false (sizeof_vec3 + sizeof_vec4) 0
          (glGetAttribLocation drv self.id self._vertexAttributeName w).2)).gl).1,
    ?_, rfl, ?_, ?_⟩
  · simp [setupAttributes, glGetAttribLocation, glVertexAttribPointer,
      glEnableVertexAttribArray, World.record, ShaderType.id, sizeof_vec3, sizeof_vec4,
      sizeof_float]
  · exact toGLint_toGLuint_toGLint _
  · exact toGLint_toGLuint_toGLint _

/-- C5: `setupAttributes` asks the driver for the location of the instance's
vertex attribute name in the instance's program, configures the slot found
(the location converted to `GLuint`) with 3 components of type `GL_FLOAT`, not
normalised, stride 28 and offset 0, and enables that slot; then, in the driver
state so reached, it asks for the location of the color attribute name,
configures the slot found with 4 components, not normalised, stride 28 and
offset 12, and enables that slot.  The world afterwards is exactly this: the
driver state is the one these six driver calls produce, the call log grows by
exactly these six calls, and nothing else changes.  Here 12 is three floats and
28 is three floats plus four floats, and a slot index is the same 32-bit value
as the location. -/
theorem setupAttributes_calls (drv : Driver σ) (self : ShaderType) (w : World σ) :
    ∃ (vertexAttrib colorAttrib : Int) (g : σ),
      vertexAttrib =
        toGLint (drv.glGetAttribLocation self.id self._vertexAttributeName w.gl).1 ∧
      g = drv.glEnableVertexAttribArray (toGLuint vertexAttrib)
            (drv.glVertexAttribPointer (toGLuint vertexAttrib) 3 GL_FLOAT false 28 0
              (drv.glGetAttribLocation self.id self._vertexAttributeName w.gl).2) ∧
      colorAttrib = toGLint (drv.glGetAttribLocation self.id self._colorAttributeName g).1 ∧
      setupAttributes drv self w =
        { gl := drv.glEnableVertexAttribArray (toGLuint colorAttrib)
                  (drv.glVertexAttribPointer (toGLuint colorAttrib) 4 GL_FLOAT false 28 12
                    (drv.glGetAttribLocation self.id self._colorAttributeName g).2),
          calls := w.calls ++
            [GLCall.glGetAttribLocation self.id self._vertexAttributeName vertexAttrib,
             GLCall.glVertexAttribPointer (toGLuint vertexAttrib) 3 GL_FLOAT false 28 0,
             GLCall.glEnableVertexAttribArray (toGLuint vertexAttrib),
             GLCall.glGetAttribLocation self.id self._colorAttributeName colorAttrib,
             GLCall.glVertexAttribPointer (toGLuint colorAttrib) 4 GL_FLOAT false 28 12,
             GLCall.glEnableVertexAttribArray (toGLuint colorAttrib)],
          cout := w.cout,
          defaultShader := w.defaultShader } ∧
      (setupAttributes drv self w).calls = w.calls ++
        [GLCall.glGetAttribLocation self.id self._vertexAttributeName vertexAttrib,
         GLCall.glVertexAttribPointer (toGLuint vertexAttrib) 3 GL_FLOAT false 28 0,
         GLCall.glEnableVertexAttribArray (toGLuint vertexAttrib),
         GLCall.glGetAttribLocation self.id self._colorAttributeName colorAttrib,
         GLCall.glVertexAttribPointer (toGLuint colorAttrib) 4 GL_FLOAT false 28 12,
         GLCall.glEnableVertexAttribArray (toGLuint colorAttrib)] ∧
      vertexAttrib = (glGetAttribLocation drv self.id self._vertexAttributeName w).1 ∧
      toGLint (toGLuint vertexAttrib) = vertexAttrib ∧
      toGLint (toGLuint colorAttrib) = colorAttrib ∧
      12 = 3 * sizeof_float ∧ 28 = 3 * sizeof_float + 4 * sizeof_float := by
  have hw : setupAttributes drv self w =
      { gl := drv.glEnableVertexAttribArray
                (toGLuint (toGLint (drv.glGetAttribLocation self.id self._colorAttributeName
                  (drv.glEnableVertexAttribArray
                    (toGLuint (toGLint
                      (drv.glGetAttribLocation self.id self._vertexAttributeName w.gl).1))
                    (drv.glVertexAttribPointer
                      (toGLuint (toGLint
                        (drv.glGetAttribLocation self.id self._vertexAttributeName w.gl).1))
                      3 GL_FLOAT false 28 0
                      (drv.glGetAttribLocation self.id self._vertexAttributeName
                        w.gl).2))).1))
                (drv.glVertexAttribPointer
                  (toGLuint (toGLint (drv.glGetAttribLocation self.id self._colorAttributeName
                    (drv.glEnableVertexAttribArray
                      (toGLuint (toGLint
                        (drv.glGetAttribLocation self.id self._vertexAttributeName w.gl).1))
                      (drv.glVertexAttribPointer
                        (toGLuint (toGLint
                          (drv.glGetAttribLocation self.id self._vertexAttributeName w.gl).1))
                        3 GL_FLOAT false 28 0
                        (drv.glGetAttribLocation self.id self._vertexAttributeName
                          w.gl).2))).1))
                  4 GL_FLOAT false 28 12
                  (drv.glGetAttribLocation self.id self._colorAttributeName
                    (drv.glEnableVertexAttribArray
                      (toGLuint (toGLint
                        (drv.glGetAttribLocation self.id self._vertexAttributeName w.gl).1))
                      (drv.glVertexAttribPointer
                        (toGLuint (toGLint
                          (drv.glGetAttribLocation self.id self._vertexAttributeName w.gl).1))
                        3 GL_FLOAT false 28 0
                        (drv.glGetAttribLocation self.id self._vertexAttributeName
                          w.gl).2))).2),
        calls := w.calls ++
          [GLCall.glGetAttribLocation self.id self._vertexAttributeName
             (toGLint (drv.glGetAttribLocation self.id self._vertexAttributeName w.gl).1),
           GLCall.glVertexAttribPointer
             (toGLuint (toGLint
               (drv.glGetAttribLocation self.id self._vertexAttributeName w.gl).1))
             3 GL_FLOAT false 28 0,
           GLCall.glEnableVertexAttribArray
             (toGLuint (toGLint
               (drv.glGetAttribLocation self.id self._vertexAttributeName w.gl).1)),
           GLCall.glGetAttribLocation self.id self._colorAttributeName
             (toGLint (drv.glGetAttribLocation self.id self._colorAttributeName
               (drv.glEnableVertexAttribArray
                 (toGLuint (toGLint
                   (drv.glGetAttribLocation self.id self._vertexAttributeName w.gl).1))
                 (drv.glVertexAttribPointer
                   (toGLuint (toGLint
                     (drv.glGetAttribLocation self.id self._vertexAttributeName w.gl).1))
                   3 GL_FLOAT false 28 0
                   (drv.glGetAttribLocation self.id self._vertexAttributeName w.gl).2))).1),
           GLCall.glVertexAttribPointer
             (toGLuint (toGLint (drv.glGetAttribLocation self.id self._colorAttributeName
               (drv.glEnableVertexAttribArray
                 (toGLuint (toGLint
                   (drv.glGetAttribLocation self.id self._vertexAttributeName w.gl).1))
                 (drv.glVertexAttribPointer
                   (toGLuint (toGLint
                     (drv.glGetAttribLocation self.id self._vertexAttributeName w.gl).1))
                   3 GL_FLOAT false 28 0
                   (drv.glGetAttribLocation self.id self._vertexAttributeName w.gl).2))).1))
             4 GL_FLOAT false 28 12,
           GLCall.glEnableVertexAttribArray
             (toGLuint (toGLint (drv.glGetAttribLocation self.id self._colorAttributeName
               (drv.glEnableVertexAttribArray
                 (toGLuint (toGLint
                   (drv.glGetAttribLocation self.id self._vertexAttributeName w.gl).1))
                 (drv.glVertexAttribPointer
                   (toGLuint (toGLint
                     (drv.glGetAttribLocation self.id self._vertexAttributeName w.gl).1))
                   3 GL_FLOAT false 28 0
                   (drv.glGetAttribLocation self.id self._vertexAttributeName w.gl).2))).1))],
        cout := w.cout,
        defaultShader := w.defaultShader } := by
    simp [setupAttributes, glGetAttribLocation, glVertexAttribPointer,
      glEnableVertexAttribArray, World.record, ShaderType.id, sizeof_vec3, sizeof_vec4,
      sizeof_float]
  refine ⟨_, _, _, rfl, rfl, rfl, hw, ?_, rfl, toGLint_toGLuint_toGLint _,
    toGLint_toGLuint_toGLint _, by decide, by decide⟩
  rw [hw]

/-- C5 at a concrete input: a fresh instance on the driver that keeps the
pipeline state; afterwards slots 0 and 1 are enabled and configured as claimed. -/
theorem setupAttributes_calls_witness :
    (setupAttributes Pipeline.driver construct Pipeline.world).gl =
      { current := 0, uploads := [],
        pointers := [(0, 3, GL_FLOAT, false, 28, 0), (1, 4, GL_FLOAT, false, 28, 12)],
        enabled := [0, 1] } ∧
    ∃ (vertexAttrib colorAttrib : Int),
      (setupAttributes Pipeline.driver construct Pipeline.world).calls =
        Pipeline.world.calls ++
          [GLCall.glGetAttribLocation construct.id "vertex" vertexAttrib,
           GLCall.glVertexAttribPointer (toGLuint vertexAttrib) 3 GL_FLOAT false 28 0,
           GLCall.glEnableVertexAttribArray (toGLuint vertexAttrib),
           GLCall.glGetAttribLocation construct.id "color" colorAttrib,
           GLCall.glVertexAttribPointer (toGLuint colorAttrib) 4 GL_FLOAT false 28 12,
           GLCall.glEnableVertexAttribArray (toGLuint colorAttrib)] := by
  obtain ⟨vertexAttrib, colorAttrib, g, -, -, -, -, h, -⟩ :=
    setupAttributes_calls Pipeline.driver construct Pipeline.world
  exact ⟨by decide, vertexAttrib, colorAttrib, h⟩

/-- The entries of `value_ptr m`: entry `4 * c + r` is column `c`, row `r`. -/
theorem value_ptr_get (m : mat4) (c r : Fin 4) :
    (value_ptr m)[4 * c.val + r.val]? = some (m.cols c r) := by
  fin_cases c <;> fin_cases r <;> rfl

/-- The location a successful `compile` caches, in terms of the driver: the
answer to `glGetUniformLocation` for the new program and the instance's matrix
uniform name, asked after both shaders were deleted. -/
theorem compile_linked_location (drv : Driver σ) (logLength : GLint) (self : ShaderType)
    (vertShaderStr fragShaderStr : String) (w : World σ)
    (hv : vertexStatus drv vertShaderStr w ≠ GL_FALSE)
    (hf : fragmentStatus drv vertShaderStr fragShaderStr w ≠ GL_FALSE)
    (hl : linkStatus drv vertShaderStr fragShaderStr w ≠ GL_FALSE) :
    (compile drv logLength self vertShaderStr fragShaderStr w).2.1._matrixUniformId =
      toGLuint (toGLint (drv.glGetUniformLocation
        (createdProgram drv vertShaderStr fragShaderStr w) self._matrixUniformName
        (drv.glDeleteShader (vertexStage drv vertShaderStr w).2.1
          (drv.glDeleteShader (vertexStage drv vertShaderStr w).1
            (linkStage drv vertShaderStr fragShaderStr w).2.2.gl))).1) := by
  rw [compile_eq_stages, if_neg hv, if_neg hf, if_neg hl]
  rfl

/-- C6: for every instance and matrix, `setupMatrices` leaves the instance as it
was, and the world afterwards is exactly the world before with the driver state
produced by `glUseProgram` on the instance's handle (the one driver call `use()`
makes) followed by one `glUniformMatrix4fv` with count 1, transpose false and
the sixteen values of the matrix, column after column, at the location held in
`_matrixUniformId`, and with these two calls added to the call log.  A `compile`
that returns `true` ends with the lookup of the instance's matrix uniform name
in the new program and leaves in `_matrixUniformId` the location the driver
answered to that lookup; a `compile` that returns `false` leaves
`_matrixUniformId` as it was. -/
theorem setupMatrices_calls (drv : Driver σ) (self : ShaderType) (matrix : mat4)
    (w : World σ) :
    (setupMatrices drv self matrix w).1 = self ∧
    (use drv self w).calls = w.calls ++ [GLCall.glUseProgram self.id] ∧
    (setupMatrices drv self matrix w).2.calls = w.calls ++
      [GLCall.glUseProgram self.id,
       GLCall.glUniformMatrix4fv (toGLint self._matrixUniformId) 1 false (value_ptr matrix)] ∧
    (value_ptr matrix).length = 16 ∧
    (∀ c r : Fin 4, (value_ptr matrix)[4 * c.val + r.val]? = some (matrix.cols c r)) ∧
    (∀ (logLength : GLint) (before : ShaderType) (vertShaderStr fragShaderStr : String)
        (w0 : World σ),
      (compile drv logLength before vertShaderStr fragShaderStr w0).1 = true →
      ∃ loc : Int,
        (compile drv logLength before vertShaderStr fragShaderStr w0).2.2.calls.getLast? =
          some (GLCall.glGetUniformLocation
            (compile drv logLength before vertShaderStr fragShaderStr w0).2.1.id
            before._matrixUniformName loc) ∧
        toGLint (compile drv logLength before vertShaderStr fragShaderStr w0).2.1._matrixUniformId
          = loc ∧
        (compile drv logLength before vertShaderStr fragShaderStr w0).2.1.id =
          createdProgram drv vertShaderStr fragShaderStr w0 ∧
        loc = toGLint (drv.glGetUniformLocation
          (createdProgram drv vertShaderStr fragShaderStr w0) before._matrixUniformName
          (drv.glDeleteShader (vertexStage drv vertShaderStr w0).2.1
            (drv.glDeleteShader (vertexStage drv vertShaderStr w0).1
              (linkStage drv vertShaderStr fragShaderStr w0).2.2.gl))).1) ∧
    (∀ (logLength : GLint) (before : ShaderType) (vertShaderStr fragShaderStr : String)
        (w0 : World σ),
      (compile drv logLength before vertShaderStr fragShaderStr w0).1 = false →
      (compile drv logLength before vertShaderStr fragShaderStr w0).2.1._matrixUniformId =
        before._matrixUniformId) ∧
    use drv self w =
      { gl := drv.glUseProgram self.id w.gl,
        calls := w.calls ++ [GLCall.glUseProgram self.id],
        cout := w.cout,
        defaultShader := w.defaultShader } ∧
    (setupMatrices drv self matrix w).2 =
      { gl := drv.glUniformMatrix4fv (toGLint self._matrixUniformId) 1 false (value_ptr matrix)
                (drv.glUseProgram self.id w.gl),
        calls := w.calls ++
          [GLCall.glUseProgram self.id,
           GLCall.glUniformMatrix4fv (toGLint self._matrixUniformId) 1 false
             (value_ptr matrix)],
        cout := w.cout,
        defaultShader := w.defaultShader } := by
  refine ⟨rfl, ?_, ?_, ?_, value_ptr_get matrix, ?_, ?_, ?_, ?_⟩
  · simp [use, glUseProgram, World.record, ShaderType.id]
  · simp [setupMatrices, use, glUseProgram, glUniformMatrix4fv, World.record, ShaderType.id]
  · simp [value_ptr]
  · intro logLength before vertShaderStr fragShaderStr w0 hc
    rw [compile_returns] at hc
    simp only [Bool.and_eq_true, decide_eq_true_eq] at hc
    obtain ⟨loc, r1, r2, -, h2, h3, -, -⟩ :=
      compile_linked drv logLength before vertShaderStr fragShaderStr w0 hc.1.1 hc.1.2 hc.2
    have h4 := compile_linked_location drv logLength before vertShaderStr fragShaderStr w0
      hc.1.1 hc.1.2 hc.2
    have h5 : toGLint (compile drv logLength before vertShaderStr fragShaderStr
        w0).2.1._matrixUniformId = loc := by
      rw [h2]; exact toGLint_toGLuint loc r1 r2
    refine ⟨loc, ?_, h5, ?_, ?_⟩
    · rw [h3, h2]; simp [ShaderType.id]
    · rw [h2]; rfl
    · rw [← h5, h4]
      exact toGLint_toGLuint_toGLint _
  · intro logLength before vertShaderStr fragShaderStr w0 hc
    by_cases hv : vertexStatus drv vertShaderStr w0 = GL_FALSE
    · obtain ⟨L, stored, -, h2, -⟩ :=
        compile_vertexError drv logLength before vertShaderStr fragShaderStr w0 hv
      rw [h2]
    · by_cases hf : fragmentStatus drv vertShaderStr fragShaderStr w0 = GL_FALSE
      · obtain ⟨L, stored, -, h2, -⟩ :=
          compile_fragmentError drv logLength before vertShaderStr fragShaderStr w0 hv hf
        rw [h2]
      · by_cases hl : linkStatus drv vertShaderStr fragShaderStr w0 = GL_FALSE
        · obtain ⟨L, stored, -, h2, -⟩ :=
            compile_linkError drv logLength before vertShaderStr fragShaderStr w0 hv hf hl
          rw [h2]
        · obtain ⟨loc, -, -, h1, -⟩ :=
            compile_linked drv logLength before vertShaderStr fragShaderStr w0 hv hf hl
          rw [h1] at hc
          exact Bool.noConfusion hc
  · simp [use, glUseProgram, World.record, ShaderType.id]
  · simp [setupMatrices, use, glUseProgram, glUniformMatrix4fv, World.record, ShaderType.id]

/-- C6 at concrete inputs.  On the test driver, an instance whose matrix uniform
name the driver does not know: the driver answers location -1, the instance
stores it as 4294967295 and `setupMatrices` uploads to location -1.  On the
driver that keeps the pipeline state, an instance with handle 3 and cached
location 5: afterwards program 3 is bound and one matrix has been uploaded to
location 5. -/
theorem setupMatrices_calls_witness :
    (compile Mock.driver 0 { construct with _matrixUniformName := "mvp" } "v" "f"
      (Mock.world true true true [])).1 = true ∧
    (compile Mock.driver 0 { construct with _matrixUniformName := "mvp" } "v" "f"
      (Mock.world true true true [])).2.1._matrixUniformId = 4294967295 ∧
    (setupMatrices Mock.driver
      (compile Mock.driver 0 { construct with _matrixUniformName := "mvp" } "v" "f"
        (Mock.world true true true [])).2.1 ⟨fun c r => 4 * c.val + r.val⟩
      (Mock.world true true true [])).2.calls =
      [GLCall.glUseProgram 3,
       GLCall.glUniformMatrix4fv (-1) 1 false
         [0, 1, 2, 3, 4, 5, 6, 7, 8, 9, 10, 11, 12, 13, 14, 15]] ∧
    (setupMatrices Pipeline.driver { construct with _shaderId := 3, _matrixUniformId := 5 }
      ⟨fun c r => 4 * c.val + r.val⟩ Pipeline.world).2.gl =
      { current := 3,
        uploads := [(5, 1, false, [0, 1, 2, 3, 4, 5, 6, 7, 8, 9, 10, 11, 12, 13, 14, 15])],
        pointers := [], enabled := [] } ∧
    (∃ loc : Int,
      (compile Mock.driver 0 { construct with _matrixUniformName := "mvp" } "v" "f"
        (Mock.world true true true [])).2.2.calls.getLast? =
        some (GLCall.glGetUniformLocation
          (compile Mock.driver 0 { construct with _matrixUniformName := "mvp" } "v" "f"
            (Mock.world true true true [])).2.1.id "mvp" loc) ∧
      toGLint (compile Mock.driver 0 { construct with _matrixUniformName := "mvp" } "v" "f"
        (Mock.world true true true [])).2.1._matrixUniformId = loc) := by
  obtain ⟨loc, h1, h2, -⟩ :=
    (setupMatrices_calls Mock.driver construct ⟨fun _ _ => 0⟩
      (Mock.world true true true [])).2.2.2.2.2.1 0
      { construct with _matrixUniformName := "mvp" } "v" "f" (Mock.world true true true [])
      (by decide)
  exact ⟨by decide, by decide, by decide, by decide, loc, h1, h2⟩

/-- The names looked up by one run of `compile`: the instance's matrix uniform
name when the run returns `true`, none otherwise; no attribute is looked up. -/
theorem compile_lookups (drv : Driver σ) (logLength : GLint) (self : ShaderType)
    (vertShaderStr fragShaderStr : String) (w : World σ) :
    ∃ new : List GLCall,
      (compile drv logLength self vertShaderStr fragShaderStr w).2.2.calls = w.calls ++ new ∧
      uniformLookups new =
        (if (compile drv logLength self vertShaderStr fragShaderStr w).1 = true
          then [self._matrixUniformName] else []) ∧
      attribLookups new = [] := by
  by_cases hv : vertexStatus drv vertShaderStr w = GL_FALSE
  · obtain ⟨L, stored, h1, -, h3, -, -⟩ :=
      compile_vertexError drv logLength self vertShaderStr fragShaderStr w hv
    rw [vertexStage_calls, List.append_assoc] at h3
    exact ⟨_, h3, by simp [h1, uniformLookups], by simp [attribLookups]⟩
  · by_cases hf : fragmentStatus drv vertShaderStr fragShaderStr w = GL_FALSE
    · obtain ⟨L, stored, h1, -, h3, -, -⟩ :=
        compile_fragmentError drv logLength self vertShaderStr fragShaderStr w hv hf
      rw [fragmentStage_calls, vertexStage_calls, List.append_assoc, List.append_assoc] at h3
      exact ⟨_, h3, by simp [h1, uniformLookups], by simp [attribLookups]⟩
    · by_cases hl : linkStatus drv vertShaderStr fragShaderStr w = GL_FALSE
      · obtain ⟨L, stored, h1, -, h3, -, -⟩ :=
          compile_linkError drv logLength self vertShaderStr fragShaderStr w hv hf hl
        rw [linkStage_calls, fragmentStage_calls, vertexStage_calls, List.append_assoc,
          List.append_assoc, List.append_assoc] at h3
        exact ⟨_, h3, by simp [h1, uniformLookups], by simp [attribLookups]⟩
      · obtain ⟨loc, -, -, h1, -, h3, -, -⟩ :=
          compile_linked drv logLength self vertShaderStr fragShaderStr w hv hf hl
        rw [linkStage_calls, fragmentStage_calls, vertexStage_calls, List.append_assoc,
          List.append_assoc, List.append_assoc] at h3
        exact ⟨_, h3, by simp [h1, uniformLookups], by simp [attribLookups]⟩

/-- C7 fails as stated: no instance obtained from the constructor carries a
matrix uniform name other than the built-in one; "mvp" cannot be configured. -/
theorem names_not_configurable :
    ¬ ∃ self : ShaderType, Constructed self ∧ self._matrixUniformName = "mvp" := by
  rintro ⟨self, ⟨⟩, h⟩
  revert h
  decide

/-- C7 as amended: every instance obtained from the constructor has the names
"u_matrix", "vertex" and "color".  For every instance, whatever its three name
members hold: the only uniform name `compile` looks up is the instance's matrix
uniform name (once, when it returns `true`), and it looks up no attribute; the
attribute names `setupAttributes` looks up are the instance's vertex attribute
name and then its color attribute name, and it looks up no uniform; and the
`bool` returned by `compile` on given sources in a given world is the same for
every other instance, so for every choice of names. -/
theorem names_looked_up (drv : Driver σ) (logLength : GLint) (self : ShaderType)
    (vertShaderStr fragShaderStr : String) (w : World σ) :
    (∀ s : ShaderType, Constructed s →
      s._matrixUniformName = "u_matrix" ∧ s._vertexAttributeName = "vertex" ∧
        s._colorAttributeName = "color") ∧
    (∃ new : List GLCall,
      (compile drv logLength self vertShaderStr fragShaderStr w).2.2.calls = w.calls ++ new ∧
      uniformLookups new =
        (if (compile drv logLength self vertShaderStr fragShaderStr w).1 = true
          then [self._matrixUniformName] else []) ∧
      attribLookups new = []) ∧
    (∃ new : List GLCall,
      (setupAttributes drv self w).calls = w.calls ++ new ∧
      attribLookups new = [self._vertexAttributeName, self._colorAttributeName] ∧
      uniformLookups new = []) ∧
    (∀ other : ShaderType,
      (compile drv logLength other vertShaderStr fragShaderStr w).1 =
        (compile drv logLength self vertShaderStr fragShaderStr w).1) := by
  refine ⟨?_, compile_lookups drv logLength self vertShaderStr fragShaderStr w, ?_, ?_⟩
  · rintro s ⟨⟩
    exact ⟨rfl, rfl, rfl⟩
  · obtain ⟨vertexAttrib, colorAttrib, h, -⟩ := setupAttributes_log drv self w
    exact ⟨_, h, by simp [attribLookups, ShaderType.id], by simp [uniformLookups]⟩
  · intro other
    rw [compile_returns, compile_returns]

/-- C7 as amended, at a concrete input: an instance with the names "mvp", "pos"
and "col" on the test driver; `compile` looks up "mvp", `setupAttributes` looks
up "pos" and "col", and `compile` returns `true` as it does for a fresh
instance. -/
theorem names_looked_up_witness :
    uniformLookups (compile Mock.driver 0
      { construct with _matrixUniformName := "mvp", _vertexAttributeName := "pos",
                       _colorAttributeName := "col" } "v" "f"
      (Mock.world true true true [])).2.2.calls = ["mvp"] ∧
    attribLookups (setupAttributes Mock.driver
      { construct with _matrixUniformName := "mvp", _vertexAttributeName := "pos",
                       _colorAttributeName := "col" }
      (Mock.world true true true [])).calls = ["pos", "col"] ∧
    (compile Mock.driver 0 construct "v" "f" (Mock.world true true true [])).1 =
      (compile Mock.driver 0
        { construct with _matrixUniformName := "mvp", _vertexAttributeName := "pos",
                         _colorAttributeName := "col" } "v" "f"
        (Mock.world true true true [])).1 :=
  ⟨by decide, by decide,
    (names_looked_up Mock.driver 0
      { construct with _matrixUniformName := "mvp", _vertexAttributeName := "pos",
                       _colorAttributeName := "col" } "v" "f"
      (Mock.world true true true [])).2.2.2 construct⟩

end GLShader
